import Mathlib

/-!
# Verification of the hpsdr-udp-proxy core

A shallow embedding of the repository's core (packet classifier, session
table, forwarder, dispatcher) together with theorems settling the frozen
claims about it.

Conventions of the embedding:
* a byte string is a `List Nat` whose entries are byte values (`< 256`
  wherever a claim speaks about real datagrams);
* Python `dict`s keyed by an immutable field of the stored object are
  represented as the list of stored values in insertion order (Python
  dictionaries preserve insertion order);
* wall-clock timestamps (`datetime.utcnow()`) are `Int` seconds; each
  handler invocation samples the clock once and receives it as a `now`
  parameter;
* external collaborators (database, authenticator, logger, socket) are
  side-effect sinks: sends are recorded in a `sent` trace, database and
  log calls carry no observable state of their own.
-/

set_option maxHeartbeats 1000000
set_option maxRecDepth 100000

abbrev Byte := Nat
abbrev Bytes := List Nat

/-- Python `data[a:b]` on a byte string for `a ≤ b` (clamping at the ends,
as Python slicing does). -/
def pySlice (l : Bytes) (a b : Nat) : Bytes := (l.drop a).take (b - a)

/-- Python `data[i]`; every use site sits under a length guard that makes
the access in range, so the default value is never observed. -/
def pyGet (l : Bytes) (i : Nat) : Nat := l.getD i 0

/-- Python `struct.unpack('>I', data[i:i+4])[0]`: big-endian 32-bit read. -/
def beUInt32 (l : Bytes) (i : Nat) : Nat :=
  pyGet l i * 16777216 + pyGet l (i + 1) * 65536 + pyGet l (i + 2) * 256 + pyGet l (i + 3)

/-- `src/src/core/packet_handler.py`: enum `HPSDRPacketType`. -/
inductive HPSDRPacketType where
  | UNKNOWN
  | DISCOVERY
  | ERASE
  | PROGRAM
  | SET_IP
  | DATA
  | START
  | STOP
  | WIDE_BAND_DATA
deriving DecidableEq, Repr

/-- Hex digit of a nibble, lowercase (as Python `'{:x}'` renders). -/
def hexChar : Nat → Char
  | 0 => '0' | 1 => '1' | 2 => '2' | 3 => '3' | 4 => '4'
  | 5 => '5' | 6 => '6' | 7 => '7' | 8 => '8' | 9 => '9'
  | 10 => 'a' | 11 => 'b' | 12 => 'c' | 13 => 'd' | 14 => 'e' | _ => 'f'

/-- Python `f'{b:02x}'` for a byte value `b < 256`. -/
def byteHex (b : Nat) : String := String.mk [hexChar (b / 16), hexChar (b % 16)]

/-- Python `':'.join(f'{b:02x}' for b in bs)`. -/
def macHex (bs : Bytes) : String := String.intercalate ":" (bs.map byteHex)

/-- Python `sep.join(str(b) for b in bs)` for decimal rendering. -/
def joinDec (sep : String) (bs : Bytes) : String :=
  String.intercalate sep (bs.map toString)

/-- `src/src/core/packet_handler.py`: dataclass `HPSDRPacket`.  The
`metadata` dict is represented by one optional field per key the parser
writes (`target_ip`, `ptt`, `freq_change`). -/
structure HPSDRPacket where
  packet_type : HPSDRPacketType
  raw_data : Bytes
  sync_bytes : Option Bytes := none
  sequence_number : Option Nat := none
  command_bytes : Option Bytes := none
  payload : Option Bytes := none
  is_response : Bool := false
  mac_address : Option String := none
  board_id : Option Nat := none
  firmware_version : Option String := none
  meta_target_ip : Option String := none
  meta_ptt : Option Bool := none
  meta_freq_change : Option Bool := none
deriving DecidableEq, Repr

/-- `PacketHandler.SYNC_PATTERN_1` (also `DISCOVERY_SYNC`). -/
def SYNC_PATTERN_1 : Bytes := [0xEF, 0xFE]

def CMD_DISCOVERY : Nat := 0x02
def CMD_SET_IP : Nat := 0x04
def PROTOCOL_1_SIZE : Nat := 1032

/-- `PacketHandler._is_set_ip_packet`. -/
def is_set_ip_packet (data : Bytes) : Bool :=
  if data.length < 3 then false
  else pySlice data 0 2 == SYNC_PATTERN_1 && pyGet data 2 == CMD_SET_IP

/-- `PacketHandler._is_discovery_packet`. -/
def is_discovery_packet (data : Bytes) : Bool :=
  if data.length < 3 then false
  else pySlice data 0 2 == SYNC_PATTERN_1 && pyGet data 2 == CMD_DISCOVERY

/-- `PacketHandler._is_protocol1_data`. -/
def is_protocol1_data (data : Bytes) : Bool :=
  if data.length < 8 then false
  else pySlice data 0 2 == SYNC_PATTERN_1 && pyGet data 2 == 0x01

/-- `PacketHandler._parse_discovery`. -/
def parse_discovery (data : Bytes) : HPSDRPacket :=
  let packet : HPSDRPacket :=
    { packet_type := .DISCOVERY, raw_data := data, sync_bytes := some (pySlice data 0 2) }
  if 9 ≤ data.length then
    let mac_bytes := pySlice data 3 9
    if mac_bytes.any (· != 0) then
      -- response branch
      let packet := { packet with
        is_response := true, mac_address := some (macHex mac_bytes) }
      let packet :=
        if 10 ≤ data.length then { packet with board_id := some (pyGet data 9) } else packet
      if 15 ≤ data.length then
        { packet with
          firmware_version := some (joinDec "." ((pySlice data 10 15).filter (· != 0))) }
      else packet
    else
      { packet with is_response := false }
  else packet

/-- `PacketHandler._parse_set_ip`. -/
def parse_set_ip (data : Bytes) : HPSDRPacket :=
  let packet : HPSDRPacket :=
    { packet_type := .SET_IP, raw_data := data, sync_bytes := some (pySlice data 0 2) }
  if 8 ≤ data.length then
    { packet with meta_target_ip := some (joinDec "." (pySlice data 4 8)) }
  else packet

/-- `PacketHandler._parse_protocol1_data`.  Note that in the source the
`len(data) >= 16` guard for the control bytes is nested inside the
`len(data) >= 1032` guard. -/
def parse_protocol1_data (data : Bytes) : HPSDRPacket :=
  let packet : HPSDRPacket :=
    { packet_type := .DATA, raw_data := data, sync_bytes := some (pySlice data 0 3) }
  let packet :=
    if 7 ≤ data.length then { packet with sequence_number := some (beUInt32 data 3) }
    else packet
  if 1032 ≤ data.length then
    let packet := { packet with payload := some (pySlice data 7 1031) }
    if 16 ≤ data.length then
      let c0 := pyGet data 11
      { packet with
        command_bytes := some (pySlice data 11 16),
        meta_ptt := some (c0 % 2 == 1),          -- bool(c0 & 0x01)
        meta_freq_change := some (c0 / 2 % 2 == 1) }  -- bool(c0 & 0x02)
    else packet
  else packet

/-- `PacketHandler.stats` counters. -/
structure HandlerStats where
  total_packets : Nat := 0
  discovery_packets : Nat := 0
  data_packets : Nat := 0
  unknown_packets : Nat := 0
  error_packets : Nat := 0
deriving DecidableEq, Repr

/-- `PacketHandler.parse`: branch order is SET_IP, then DISCOVERY, then
Protocol-1 DATA, then UNKNOWN, with the statistics updates of each branch.
No reachable branch of the Python body raises, so the `except` arm (which
would bump `error_packets`) never fires and is not represented. -/
def PacketHandler.parse (stats : HandlerStats) (data : Bytes) : HandlerStats × HPSDRPacket :=
  let stats := { stats with total_packets := stats.total_packets + 1 }
  if is_set_ip_packet data then
    (stats, parse_set_ip data)
  else if is_discovery_packet data then
    ({ stats with discovery_packets := stats.discovery_packets + 1 }, parse_discovery data)
  else if is_protocol1_data data then
    ({ stats with data_packets := stats.data_packets + 1 }, parse_protocol1_data data)
  else
    ({ stats with unknown_packets := stats.unknown_packets + 1 },
     { packet_type := .UNKNOWN, raw_data := data })

/-- The spec calls the classifier `classify`; it is `PacketHandler.parse`
with the statistics projected away. -/
def classify (data : Bytes) : HPSDRPacket := (PacketHandler.parse {} data).2

/-- `PacketHandler.create_discovery_request`: 63 bytes, `EF FE 02` then
zero padding. -/
def create_discovery_request : Bytes := [0xEF, 0xFE, 0x02] ++ List.replicate 60 0

/-- The hexadecimal digit characters with their values. -/
def HEX_DIGITS : List (Char × Nat) :=
  [('0', 0), ('1', 1), ('2', 2), ('3', 3), ('4', 4), ('5', 5), ('6', 6), ('7', 7),
   ('8', 8), ('9', 9), ('a', 10), ('b', 11), ('c', 12), ('d', 13), ('e', 14), ('f', 15),
   ('A', 10), ('B', 11), ('C', 12), ('D', 13), ('E', 14), ('F', 15)]

/-- Value of a hexadecimal digit character, upper or lower case. -/
def hexDigitVal (c : Char) : Option Nat :=
  (HEX_DIGITS.find? (fun p => p.1 == c)).map (·.2)

/-- Python `bytes.fromhex` on strings of hex digits (the call site feeds it
a MAC string with the colons removed; embedded whitespace never occurs
there). `none` models the `ValueError` Python raises on bad input. -/
def fromhex : List Char → Option Bytes
  | [] => some []
  | [_] => none
  | c₁ :: c₂ :: rest =>
    match hexDigitVal c₁, hexDigitVal c₂, fromhex rest with
    | some h, some l, some bs => some ((h * 16 + l) :: bs)
    | _, _, _ => none

/-- Python `str.split('.')` at character level. -/
def splitDots : List Char → List (List Char)
  | [] => [[]]
  | c :: rest =>
    if c = '.' then [] :: splitDots rest
    else
      match splitDots rest with
      | [] => [[c]]
      | g :: gs => (c :: g) :: gs

/-- Python `int(s)` on plain decimal digit strings (the firmware version
fields in scope); `none` models the `ValueError` on anything else. -/
def parseDec (l : List Char) : Option Nat :=
  match l with
  | [] => none
  | _ =>
    l.foldl
      (fun acc c =>
        match acc, hexDigitVal c with
        | some n, some d => if d < 10 then some (n * 10 + d) else none
        | _, _ => none)
      (some 0)

/-- The firmware-version write loop of `create_discovery_response`:
`packet[10+i] = int(part)`.  `none` models `ValueError` (non-decimal part
or a value that does not fit a byte) and `IndexError`. -/
def writeFwParts : Bytes → Nat → List (List Char) → Option Bytes
  | pkt, _, [] => some pkt
  | pkt, i, part :: rest =>
    match parseDec part with
    | none => none
    | some v =>
      if 256 ≤ v then none
      else if pkt.length ≤ i then none
      else writeFwParts (pkt.set i v) (i + 1) rest

/-- `PacketHandler.create_discovery_response`.  The 60-byte buffer is
filled exactly as the source does; `packet[3:9] = mac_bytes` is a
`bytearray` slice assignment, which splices (resizing the buffer when the
MAC does not decode to exactly 6 bytes).  `none` models the exceptions
Python raises (bad hex, board id or firmware part outside a byte). -/
def create_discovery_response (mac_address : String) (board_id : Nat := 0x06)
    (firmware_version : String := "1.0.0") : Option Bytes :=
  match fromhex (mac_address.data.filter (· != ':')) with
  | none => none
  | some mac_bytes =>
    if 256 ≤ board_id then none
    else
      let packet := (((List.replicate 60 0).set 0 0xEF).set 1 0xFE).set 2 0x02
      let packet := packet.take 3 ++ mac_bytes ++ packet.drop 9
      if packet.length ≤ 9 then none
      else
        let packet := packet.set 9 board_id
        writeFwParts packet 10 ((splitDots firmware_version.data).take 5)

example : (classify create_discovery_request).packet_type = .DISCOVERY := by decide
example : (classify create_discovery_request).is_response = false := by decide

/-! ## Session manager (`src/src/core/session_manager.py`) -/

/-- A UDP endpoint `(ip, port)`. -/
structure Endpoint where
  ip : String
  port : Nat
deriving DecidableEq, Repr

/-- Dataclass `ActiveSession`. -/
structure ActiveSession where
  session_id : Nat
  user_id : Nat
  username : String
  token : String
  client_address : Endpoint
  radio_address : Option Endpoint
  radio_id : Option Nat
  created_at : Int
  expires_at : Int
  last_activity : Int
  authenticated : Bool := true
deriving DecidableEq, Repr

/-- `ActiveSession.is_expired`: `datetime.utcnow() > self.expires_at`. -/
def ActiveSession.is_expired (s : ActiveSession) (now : Int) : Bool :=
  decide (s.expires_at < now)

/-- `ActiveSession.is_idle`: `(utcnow() - last_activity).total_seconds() > timeout`. -/
def ActiveSession.is_idle (s : ActiveSession) (now : Int) (timeout_seconds : Int) : Bool :=
  decide (timeout_seconds < now - s.last_activity)

/-- `ActiveSession.update_activity`: `self.last_activity = utcnow()`. -/
def ActiveSession.update_activity (s : ActiveSession) (now : Int) : ActiveSession :=
  { s with last_activity := now }

/-- `SessionManager.stats` (keys `total_sessions`, `active_sessions`,
`expired_sessions`, `timeouts`). -/
structure SMStats where
  total_sessions : Nat := 0
  active_sessions : Nat := 0
  expired_sessions : Nat := 0
  timeouts : Nat := 0
deriving DecidableEq, Repr

/-- Python dict assignment `d[key(s)] = s` for a dict represented as its
values in insertion order: an existing key keeps its position, a fresh key
appends. -/
def dictInsert {κ : Type} [DecidableEq κ] (key : ActiveSession → κ)
    (l : List ActiveSession) (s : ActiveSession) : List ActiveSession :=
  if l.any (fun t => decide (key t = key s)) then
    l.map (fun t => if key t = key s then s else t)
  else l ++ [s]

/-- Python `d.pop(k, None)`. -/
def dictRemove {κ : Type} [DecidableEq κ] (key : ActiveSession → κ)
    (l : List ActiveSession) (k : κ) : List ActiveSession :=
  l.filter (fun t => decide (key t ≠ k))

/-- Python `d.get(k)`. -/
def dictFind? {κ : Type} [DecidableEq κ] (key : ActiveSession → κ)
    (l : List ActiveSession) (k : κ) : Option ActiveSession :=
  l.find? (fun t => decide (key t = k))

/-- `SessionManager`.  The three Python dicts hold references to the same
`ActiveSession` objects under immutable key fields
(`client_address` / `token` / `session_id`); each dict is represented as
the list of its values in insertion order.  `next_session_id` and
`anon_session_ttl` support the spec-modelled anonymous-session creation
(the spec assigns session ids monotonically and gives every session an
expiry horizon). -/
structure SessionManager where
  sessions_by_client : List ActiveSession := []
  sessions_by_token : List ActiveSession := []
  sessions_by_id : List ActiveSession := []
  stats : SMStats := {}
  session_timeout : Int := 60
  next_session_id : Nat := 1
  anon_session_ttl : Int := 3600
deriving DecidableEq, Repr

namespace SessionManager

/-- `SessionManager._add_session`. -/
def add_session (m : SessionManager) (s : ActiveSession) : SessionManager :=
  let by_client := dictInsert (·.client_address) m.sessions_by_client s
  { m with
    sessions_by_client := by_client
    sessions_by_token := dictInsert (·.token) m.sessions_by_token s
    sessions_by_id := dictInsert (·.session_id) m.sessions_by_id s
    stats := { m.stats with
      active_sessions := by_client.length
      total_sessions := m.stats.total_sessions + 1 } }

/-- `SessionManager._remove_session`. -/
def remove_session (m : SessionManager) (s : ActiveSession) : SessionManager :=
  let by_client := dictRemove (·.client_address) m.sessions_by_client s.client_address
  { m with
    sessions_by_client := by_client
    sessions_by_token := dictRemove (·.token) m.sessions_by_token s.token
    sessions_by_id := dictRemove (·.session_id) m.sessions_by_id s.session_id
    stats := { m.stats with active_sessions := by_client.length } }

/-- `SessionManager.get_session_by_client`: dictionary lookup, filtering
out an expired entry at read time. -/
def get_session_by_client (m : SessionManager) (now : Int) (ep : Endpoint) :
    Option ActiveSession :=
  match dictFind? (·.client_address) m.sessions_by_client ep with
  | none => none
  | some s => if s.is_expired now then none else some s

/-- In Python, mutating the session object found under `by_client[ep]` is
visible through every dict that holds the same object; modelled by mapping
the update over every stored copy with that client address. -/
def mutateByClient (m : SessionManager) (ep : Endpoint)
    (f : ActiveSession → ActiveSession) : SessionManager :=
  let g := fun (t : ActiveSession) => if t.client_address = ep then f t else t
  { m with
    sessions_by_client := m.sessions_by_client.map g
    sessions_by_token := m.sessions_by_token.map g
    sessions_by_id := m.sessions_by_id.map g }

/-- `SessionManager.update_activity`.  The returned flag records whether
`db.update_session_activity` was invoked: the guard re-reads
`session.last_activity` right after `session.update_activity()` set it to
the current time. -/
def update_activity (m : SessionManager) (now : Int) (ep : Endpoint) :
    SessionManager × Bool :=
  match get_session_by_client m now ep with
  | none => (m, false)
  | some s =>
    let s' := s.update_activity now
    let m' := mutateByClient m ep (fun t => t.update_activity now)
    (m', decide ((10 : Int) < now - s'.last_activity))

/-- `SessionManager.assign_radio`. -/
def assign_radio (m : SessionManager) (now : Int) (ep : Endpoint)
    (radio_ip : String) (radio_port : Nat) (radio_id : Option Nat := none) :
    SessionManager × Bool :=
  match get_session_by_client m now ep with
  | none => (m, false)
  | some _ =>
    (mutateByClient m ep (fun s =>
      { s with radio_address := some ⟨radio_ip, radio_port⟩, radio_id := radio_id }), true)

/-- `SessionManager.get_radio_for_client`. -/
def get_radio_for_client (m : SessionManager) (now : Int) (ep : Endpoint) :
    Option Endpoint :=
  match get_session_by_client m now ep with
  | some s => s.radio_address
  | none => none

/-- `SessionManager.get_client_for_radio`: a linear scan over
`sessions_by_client.values()` returning the first session whose
`radio_address` equals the queried radio endpoint. -/
def get_client_for_radio (m : SessionManager) (radio_ip : String) (radio_port : Nat) :
    Option Endpoint :=
  (m.sessions_by_client.find? fun s =>
      decide (s.radio_address = some ⟨radio_ip, radio_port⟩)).map (·.client_address)

/-- `SessionManager.terminate_session`.  The database deactivation and the
activity log are external no-ops; the in-memory removal happens only when
`get_session_by_client` returns the session (which it does not for an
expired one). -/
def terminate_session (m : SessionManager) (now : Int) (ep : Endpoint)
    (reason : String := "terminated") : SessionManager :=
  match get_session_by_client m now ep with
  | none => m
  | some s => remove_session m s

/-- `SessionManager._cleanup_sessions` (one reaper pass; the
`db.cleanup_expired_sessions()` call is an external no-op). -/
def cleanup_sessions (m : SessionManager) (now : Int) : SessionManager :=
  let expired := m.sessions_by_client.filter (fun s => s.is_expired now)
  let idle := m.sessions_by_client.filter
    (fun s => !s.is_expired now && s.is_idle now m.session_timeout)
  let m := expired.foldl
    (fun acc s =>
      let acc := terminate_session acc now s.client_address "expired"
      { acc with stats := { acc.stats with
          expired_sessions := acc.stats.expired_sessions + 1 } })
    m
  idle.foldl
    (fun acc s =>
      let acc := terminate_session acc now s.client_address "timeout"
      { acc with stats := { acc.stats with timeouts := acc.stats.timeouts + 1 } })
    m

/-- `SessionManager.get_statistics`: the stored counters with
`active_sessions` overridden by the live table size. -/
def get_statistics (m : SessionManager) : SMStats :=
  { m.stats with active_sessions := m.sessions_by_client.length }

/-- Modelled from the spec: `SessionManager.create_anonymous_session` is
called from `main.py` (`_handle_discovery`, `_handle_data`,
`_handle_set_ip`) but no definition exists under `src/`.  Per spec §3
(lifecycle trigger (b)/(c), anonymous principal sentinel, monotonically
assigned session id, `created_at ≤ last_activity ≤ expires_at`) and §4.C
(`create` first removes an existing entry for the same client endpoint) it
inserts a fresh anonymous session for the client endpoint and returns it. -/
def create_anonymous_session (m : SessionManager) (now : Int) (ep : Endpoint) :
    SessionManager × ActiveSession :=
  let sid := m.next_session_id
  let s : ActiveSession :=
    { session_id := sid
      user_id := 0
      username := "anonymous"
      token := "anonymous-" ++ toString sid
      client_address := ep
      radio_address := none
      radio_id := none
      created_at := now
      expires_at := now + m.anon_session_ttl
      last_activity := now
      authenticated := false }
  let m :=
    match dictFind? (·.client_address) m.sessions_by_client ep with
    | some old => remove_session m old
    | none => m
  (add_session { m with next_session_id := sid + 1 } s, s)

/-- `SessionManager.validate_client` at the `_handle_discovery` call site,
where `token=None`: an existing live session is touched and returned, and
without a token no fallback session is recreated. -/
def validate_client (m : SessionManager) (now : Int) (ep : Endpoint) :
    SessionManager × Bool × Option ActiveSession :=
  match get_session_by_client m now ep with
  | some s =>
    (mutateByClient m ep (fun t => t.update_activity now), true,
     some (s.update_activity now))
  | none => (m, false, none)

end SessionManager

/-! ## Forwarder and dispatcher (`src/src/core/forwarder.py`, `src/main.py`,
`src/src/core/udp_listener.py`, radio descriptors from
`src/src/utils/config.py`) -/

/-- `UDPListener.stats` counters. -/
structure ListenerStats where
  packets_received : Nat := 0
  bytes_received : Nat := 0
  errors : Nat := 0
deriving DecidableEq, Repr

/-- `PacketForwarder.stats` counters. -/
structure FwdStats where
  packets_forwarded_to_radio : Nat := 0
  packets_forwarded_to_client : Nat := 0
  bytes_forwarded_to_radio : Nat := 0
  bytes_forwarded_to_client : Nat := 0
  errors : Nat := 0
  dropped_no_session : Nat := 0
  dropped_no_radio : Nat := 0
deriving DecidableEq, Repr

/-- One entry of `PacketForwarder.session_stats`. -/
structure SessionStat where
  packets_sent : Nat := 0
  packets_received : Nat := 0
  bytes_sent : Nat := 0
  bytes_received : Nat := 0
  start_time : Int := 0
deriving DecidableEq, Repr

/-- `RadioConfig` from `src/src/utils/config.py` (the fields the core
reads). -/
structure RadioConfig where
  name : String
  ip : String
  port : Nat := 1024
  data_port : Option Nat := none
  enabled : Bool := true
deriving DecidableEq, Repr

/-- `RadioConfig.get_data_port`: the data port, defaulting to `port`. -/
def RadioConfig.get_data_port (r : RadioConfig) : Nat :=
  r.data_port.getD r.port

/-- `forwarder.session_stats.get(sid)`. -/
def statsFind? (l : List (Nat × SessionStat)) (k : Nat) : Option SessionStat :=
  (l.find? (fun p => decide (p.1 = k))).map (·.2)

/-- In-place update of `forwarder.session_stats[sid]`. -/
def statsModify (l : List (Nat × SessionStat)) (k : Nat)
    (f : SessionStat → SessionStat) : List (Nat × SessionStat) :=
  l.map (fun p => if p.1 = k then (k, f p.2) else p)

/-- The observable state of the running proxy (`HPSDRProxy` in
`src/main.py` with its components): session manager, the three statistics
blocks, the enabled-radio list (`self.radios.values()`, configuration
order), the resolved-IP map (`self.radio_ips`, insertion order), the
anonymous-mode flag, and the trace of datagrams handed to
`UDPListener.send_to` as `(payload, destination)` pairs. -/
structure ProxyState where
  sm : SessionManager
  fwd_stats : FwdStats := {}
  session_stats : List (Nat × SessionStat) := []
  handler_stats : HandlerStats := {}
  listener_stats : ListenerStats := {}
  radios : List RadioConfig := []
  radio_ips : List (String × RadioConfig) := []
  allow_anonymous : Bool := true
  sent : List (Bytes × Endpoint) := []
deriving DecidableEq, Repr

/-- `PacketForwarder.forward_to_radio`: look the session up, require an
assigned radio, send, bump global and per-session counters, touch the
session.  The returned flag is the Python return value. -/
def forward_to_radio (st : ProxyState) (now : Int) (data : Bytes) (ep : Endpoint) :
    ProxyState × Bool :=
  match st.sm.get_session_by_client now ep with
  | none =>
    ({ st with fwd_stats := { st.fwd_stats with
        dropped_no_session := st.fwd_stats.dropped_no_session + 1 } }, false)
  | some session =>
    match session.radio_address with
    | none =>
      ({ st with fwd_stats := { st.fwd_stats with
          dropped_no_radio := st.fwd_stats.dropped_no_radio + 1 } }, false)
    | some radio_address =>
      let st := { st with sent := st.sent ++ [(data, radio_address)] }
      let st := { st with fwd_stats := { st.fwd_stats with
        packets_forwarded_to_radio := st.fwd_stats.packets_forwarded_to_radio + 1
        bytes_forwarded_to_radio := st.fwd_stats.bytes_forwarded_to_radio + data.length } }
      let st := { st with sm := (st.sm.update_activity now ep).1 }
      let st :=
        if (statsFind? st.session_stats session.session_id).isSome then st
        else { st with
          session_stats := st.session_stats ++ [(session.session_id, { start_time := now })] }
      let st := { st with
        session_stats := statsModify st.session_stats session.session_id (fun s =>
          { s with packets_sent := s.packets_sent + 1
                   bytes_sent := s.bytes_sent + data.length }) }
      (st, true)

/-- `PacketForwarder.forward_to_client`: reverse-index lookup, send to the
client, bump counters (per-session ones only when the session already has
a stats entry). -/
def forward_to_client (st : ProxyState) (now : Int) (data : Bytes)
    (radio_ip : String) (radio_port : Nat) : ProxyState × Bool :=
  match st.sm.get_client_for_radio radio_ip radio_port with
  | none => (st, false)
  | some client_address =>
    let session := st.sm.get_session_by_client now client_address
    let st := { st with sent := st.sent ++ [(data, client_address)] }
    let st := { st with fwd_stats := { st.fwd_stats with
      packets_forwarded_to_client := st.fwd_stats.packets_forwarded_to_client + 1
      bytes_forwarded_to_client := st.fwd_stats.bytes_forwarded_to_client + data.length } }
    let st :=
      match session with
      | some s =>
        if (statsFind? st.session_stats s.session_id).isSome then
          { st with
            session_stats := statsModify st.session_stats s.session_id (fun t =>
              { t with packets_received := t.packets_received + 1
                       bytes_received := t.bytes_received + data.length }) }
        else st
      | none => st
    (st, true)

/-- `HPSDRProxy._handle_discovery` (the packet argument carries no
information the handler reads beyond having classified as Discovery). -/
def handle_discovery (st : ProxyState) (now : Int) (ep : Endpoint) (data : Bytes) :
    ProxyState :=
  let r := st.sm.validate_client now ep
  let st := { st with sm := r.1 }
  let is_valid := r.2.1
  let session := r.2.2
  if !is_valid && !st.allow_anonymous then st
  else
    match st.radios with
    | [] => st
    | radio :: _ =>
      match (st.radio_ips.find? fun p => decide (p.2 = radio)).map (·.1) with
      | none => st
      | some resolved_radio_ip =>
        let stSession :=
          if session.isNone && st.allow_anonymous then
            let c := st.sm.create_anonymous_session now ep
            ({ st with sm := c.1 }, some c.2)
          else (st, session)
        let st := stSession.1
        let st :=
          match stSession.2 with
          | some _ =>
            { st with sm := (st.sm.assign_radio now ep resolved_radio_ip radio.port none).1 }
          | none => st
        (forward_to_radio st now data ep).1

/-- `HPSDRProxy._handle_data`.  When anonymous creation runs with an empty
radio list, `list(self.radios.values())[0]` raises `IndexError`, which the
dispatcher's catch-all swallows after the session was already created and
before any forwarding. -/
def handle_data (st : ProxyState) (now : Int) (ep : Endpoint) (data : Bytes) :
    ProxyState :=
  match st.sm.get_session_by_client now ep with
  | some _ => (forward_to_radio st now data ep).1
  | none =>
    if st.allow_anonymous then
      let c := st.sm.create_anonymous_session now ep
      let st := { st with sm := c.1 }
      match st.radios with
      | [] => st
      | radio :: _ =>
        let st :=
          match (st.radio_ips.find? fun p => decide (p.2 = radio)).map (·.1) with
          | some resolved_radio_ip =>
            { st with
              sm := (st.sm.assign_radio now ep resolved_radio_ip radio.get_data_port none).1 }
          | none => st
        (forward_to_radio st now data ep).1
    else st

/-- `HPSDRProxy._handle_set_ip`: like `_handle_data` but an on-the-fly
anonymous session is bound to the radio's control port. -/
def handle_set_ip (st : ProxyState) (now : Int) (ep : Endpoint) (data : Bytes) :
    ProxyState :=
  match st.sm.get_session_by_client now ep with
  | some _ => (forward_to_radio st now data ep).1
  | none =>
    if st.allow_anonymous then
      let c := st.sm.create_anonymous_session now ep
      let st := { st with sm := c.1 }
      match st.radios with
      | [] => st
      | radio :: _ =>
        let st :=
          match (st.radio_ips.find? fun p => decide (p.2 = radio)).map (·.1) with
          | some resolved_radio_ip =>
            { st with
              sm := (st.sm.assign_radio now ep resolved_radio_ip radio.port none).1 }
          | none => st
        (forward_to_radio st now data ep).1
    else st

/-- `HPSDRProxy._handle_client_packet`: source-based direction check first
(`client_ip in self.radio_ips` — no parsing on that path), then classify
and dispatch; UNKNOWN packets take the data path, the remaining kinds are
best-effort forwarded. -/
def handle_client_packet (st : ProxyState) (now : Int) (data : Bytes) (addr : Endpoint) :
    ProxyState :=
  if st.radio_ips.any (fun p => p.1 == addr.ip) then
    (forward_to_client st now data addr.ip addr.port).1
  else
    let pr := PacketHandler.parse st.handler_stats data
    let st := { st with handler_stats := pr.1 }
    match pr.2.packet_type with
    | .DISCOVERY => handle_discovery st now addr data
    | .SET_IP => handle_set_ip st now addr data
    | .DATA => handle_data st now addr data
    | .UNKNOWN => handle_data st now addr data
    | _ => (forward_to_radio st now data addr).1

/-- `UDPListener._handle_packet`: receive counters, then the dispatcher
callback. -/
def handle_datagram (st : ProxyState) (now : Int) (data : Bytes) (addr : Endpoint) :
    ProxyState :=
  let st := { st with listener_stats := { st.listener_stats with
    packets_received := st.listener_stats.packets_received + 1
    bytes_received := st.listener_stats.bytes_received + data.length } }
  handle_client_packet st now data addr

/-- The operations observable on a running proxy: datagram arrival, a
reaper tick, an external termination, and the three explicit statistics
resets (`PacketHandler.reset_statistics`, `PacketForwarder.reset_statistics`,
`UDPListener.reset_statistics`).  The session-table counters have no reset
operation in the source. -/
inductive ProxyOp where
  | recv (now : Int) (data : Bytes) (addr : Endpoint)
  | reaperTick (now : Int)
  | externalTerminate (now : Int) (ep : Endpoint) (reason : String)
  | resetHandlerStats
  | resetForwarderStats
  | resetListenerStats
deriving Repr

/-- Whether an operation is one of the explicit statistics resets. -/
def ProxyOp.isReset : ProxyOp → Bool
  | .resetHandlerStats | .resetForwarderStats | .resetListenerStats => true
  | _ => false

/-- Apply one operation to the proxy state. -/
def applyOp (st : ProxyState) : ProxyOp → ProxyState
  | .recv now data addr => handle_datagram st now data addr
  | .reaperTick now => { st with sm := st.sm.cleanup_sessions now }
  | .externalTerminate now ep reason =>
    { st with sm := st.sm.terminate_session now ep reason }
  | .resetHandlerStats => { st with handler_stats := {} }
  | .resetForwarderStats => { st with fwd_stats := {} }
  | .resetListenerStats => { st with listener_stats := {} }

/-! ## Counter order and concrete example states used by the theorems -/

/-- Order on the session-table counters that are pure counters
(`active_sessions` is a gauge and is excluded). -/
def SMLE (a b : SessionManager) : Prop :=
  a.stats.total_sessions ≤ b.stats.total_sessions ∧
  a.stats.expired_sessions ≤ b.stats.expired_sessions ∧
  a.stats.timeouts ≤ b.stats.timeouts

/-- Order on every observable counter that is a pure counter: packet
handler, UDP listener, forwarder, and the session-table counters
(`active_sessions`, a gauge of the current table size, is excluded). -/
def CountersLE (a b : ProxyState) : Prop :=
  a.handler_stats.total_packets ≤ b.handler_stats.total_packets ∧
  a.handler_stats.discovery_packets ≤ b.handler_stats.discovery_packets ∧
  a.handler_stats.data_packets ≤ b.handler_stats.data_packets ∧
  a.handler_stats.unknown_packets ≤ b.handler_stats.unknown_packets ∧
  a.handler_stats.error_packets ≤ b.handler_stats.error_packets ∧
  a.listener_stats.packets_received ≤ b.listener_stats.packets_received ∧
  a.listener_stats.bytes_received ≤ b.listener_stats.bytes_received ∧
  a.listener_stats.errors ≤ b.listener_stats.errors ∧
  a.fwd_stats.packets_forwarded_to_radio ≤ b.fwd_stats.packets_forwarded_to_radio ∧
  a.fwd_stats.packets_forwarded_to_client ≤ b.fwd_stats.packets_forwarded_to_client ∧
  a.fwd_stats.bytes_forwarded_to_radio ≤ b.fwd_stats.bytes_forwarded_to_radio ∧
  a.fwd_stats.bytes_forwarded_to_client ≤ b.fwd_stats.bytes_forwarded_to_client ∧
  a.fwd_stats.errors ≤ b.fwd_stats.errors ∧
  a.fwd_stats.dropped_no_session ≤ b.fwd_stats.dropped_no_session ∧
  a.fwd_stats.dropped_no_radio ≤ b.fwd_stats.dropped_no_radio ∧
  SMLE a.sm b.sm

def exRadio : RadioConfig :=
  { name := "R", ip := "radio.local", port := 1024, data_port := some 1025 }

def exClient : Endpoint := ⟨"192.168.1.20", 50000⟩

def exState : ProxyState :=
  { sm := {}, radios := [exRadio], radio_ips := [("10.0.0.5", exRadio)], allow_anonymous := true }

def exBoundSession : ActiveSession :=
  { session_id := 1, user_id := 0, username := "anonymous", token := "anonymous-1",
    client_address := exClient, radio_address := some ⟨"10.0.0.5", 1025⟩, radio_id := none,
    created_at := 0, expires_at := 3600, last_activity := 0, authenticated := false }

def exBoundState : ProxyState :=
  { exState with sm := SessionManager.add_session {} exBoundSession }

def exExpiredSession : ActiveSession :=
  { session_id := 1, user_id := 7, username := "alice", token := "tok1",
    client_address := exClient, radio_address := none, radio_id := none,
    created_at := 0, expires_at := 100, last_activity := 50, authenticated := true }

def exExpiredSM : SessionManager := SessionManager.add_session {} exExpiredSession

def exSessA : ActiveSession :=
  { session_id := 1, user_id := 0, username := "anonymous", token := "anonymous-1",
    client_address := ⟨"192.168.1.20", 50000⟩, radio_address := none, radio_id := none,
    created_at := 0, expires_at := 3600, last_activity := 0, authenticated := false }

def exSessB : ActiveSession :=
  { session_id := 2, user_id := 0, username := "anonymous", token := "anonymous-2",
    client_address := ⟨"192.168.1.21", 50001⟩, radio_address := none, radio_id := none,
    created_at := 5, expires_at := 3600, last_activity := 5, authenticated := false }

/-- Session A claims the radio at t=10, session B claims the same radio
endpoint at t=20 (so B is the most recent claimer). -/
def exContendedSM : SessionManager :=
  ((((SessionManager.add_session {} exSessA).add_session exSessB).assign_radio
      10 ⟨"192.168.1.20", 50000⟩ "10.0.0.5" 1024 none).1.assign_radio
      20 ⟨"192.168.1.21", 50001⟩ "10.0.0.5" 1024 none).1

def exSessA' : ActiveSession := { exSessA with radio_address := some ⟨"10.0.0.5", 1024⟩ }

def exSessB' : ActiveSession := { exSessB with radio_address := some ⟨"10.0.0.5", 1024⟩ }


/-- C4 (amended): a byte string starting `EF FE 01` of length at least 8 classifies
as Data with the big-endian 32-bit sequence number taken from bytes 3..7; the C0..C4
control window (bytes 11..16) and the ptt / freq_change flags from bits 0 and 1 of C0
are populated only when the length is at least 1032 (a full Protocol-1 frame), not
already at length 16. -/
theorem C4_thm (b3 b4 b5 b6 b7 : Nat) (rest : Bytes) (data : Bytes)
    (hdata : data = 0xEF :: 0xFE :: 0x01 :: b3 :: b4 :: b5 :: b6 :: b7 :: rest) :
    (classify data).packet_type = .DATA ∧
    (classify data).sequence_number = some (b3 * 16777216 + b4 * 65536 + b5 * 256 + b6) ∧
    (1032 ≤ data.length →
      (classify data).command_bytes = some ((rest.drop 3).take 5) ∧
      (classify data).meta_ptt = some (rest.getD 3 0 % 2 == 1) ∧
      (classify data).meta_freq_change = some (rest.getD 3 0 / 2 % 2 == 1)) := by
  subst hdata
  refine ⟨?_, ?_, fun h => ?_⟩
  · simp [classify, PacketHandler.parse, is_set_ip_packet, is_discovery_packet,
      is_protocol1_data, parse_protocol1_data, pySlice, pyGet, SYNC_PATTERN_1,
      CMD_SET_IP, CMD_DISCOVERY, beUInt32]
    split_ifs <;> rfl
  · simp [classify, PacketHandler.parse, is_set_ip_packet, is_discovery_packet,
      is_protocol1_data, parse_protocol1_data, pySlice, pyGet, SYNC_PATTERN_1,
      CMD_SET_IP, CMD_DISCOVERY, beUInt32]
    split_ifs <;> rfl
  · have h1024 : 1024 ≤ rest.length := by simp [List.length_cons] at h; omega
    have h8 : 8 ≤ rest.length := by omega
    simp [classify, PacketHandler.parse, is_set_ip_packet, is_discovery_packet,
      is_protocol1_data, parse_protocol1_data, pySlice, pyGet, SYNC_PATTERN_1,
      CMD_SET_IP, CMD_DISCOVERY, beUInt32, h1024, h8, List.getD]

theorem parse_packet_eq_classify (stats : HandlerStats) (data : Bytes) :
    (PacketHandler.parse stats data).2 = classify data := by
  unfold classify PacketHandler.parse
  split_ifs <;> rfl

theorem classify_unknown (data : Bytes)
    (h1 : is_set_ip_packet data = false) (h2 : is_discovery_packet data = false)
    (h3 : is_protocol1_data data = false) :
    classify data = { packet_type := .UNKNOWN, raw_data := data } := by
  unfold classify PacketHandler.parse
  simp [h1, h2, h3]

theorem forward_to_radio_sent (st : ProxyState) (now : Int) (data : Bytes) (ep : Endpoint)
    (s : ActiveSession) (r : Endpoint)
    (h1 : st.sm.get_session_by_client now ep = some s) (h2 : s.radio_address = some r) :
    ((forward_to_radio st now data ep).1).sent = st.sent ++ [(data, r)] := by
  simp only [forward_to_radio, h1, h2]
  split <;> rfl

theorem forward_to_client_handler_stats (st : ProxyState) (now : Int) (data : Bytes)
    (rip : String) (rport : Nat) :
    ((forward_to_client st now data rip rport).1).handler_stats = st.handler_stats := by
  unfold forward_to_client
  split
  · rfl
  · dsimp only
    split
    · split <;> rfl
    · rfl

/-- C7: a datagram whose source IP is a key of the radio IP map is handed directly to
the forwarder's to-client path, and the classifier is never invoked — the packet
handler counters, which `parse` bumps on every call, are untouched. -/
theorem C7_thm (st : ProxyState) (now : Int) (data : Bytes) (addr : Endpoint)
    (h : st.radio_ips.any (fun p => p.1 == addr.ip) = true) :
    handle_client_packet st now data addr = (forward_to_client st now data addr.ip addr.port).1 ∧
    (handle_client_packet st now data addr).handler_stats = st.handler_stats := by
  have he : handle_client_packet st now data addr
      = (forward_to_client st now data addr.ip addr.port).1 := by
    unfold handle_client_packet
    rw [if_pos h]
  exact ⟨he, by rw [he]; exact forward_to_client_handler_stats st now data addr.ip addr.port⟩

/-- C10: `SessionManager.update_activity` never reaches the database write.  The
guard compares the clock against `last_activity`, which `session.update_activity()`
has just set to the same clock sample, so the 10-second threshold test is always
false and `db.update_session_activity` is dead code on this path. -/
theorem C10_thm (m : SessionManager) (now : Int) (ep : Endpoint) :
    (m.update_activity now ep).2 = false := by
  unfold SessionManager.update_activity
  cases h : m.get_session_by_client now ep
  · rfl
  · simp [ActiveSession.update_activity]

/-- C5: a byte string starting `EF FE 04` classifies as SetIP — never Discovery, the
SetIP check runs first — and for length at least 8 the record's `target_ip` metadata
is the dotted-decimal rendering of bytes 4..8. -/
theorem C5_thm (rest : Bytes) (data : Bytes) (hdata : data = 0xEF :: 0xFE :: 0x04 :: rest) :
    (classify data).packet_type = .SET_IP ∧
    (classify data).packet_type ≠ .DISCOVERY ∧
    (8 ≤ data.length →
      (classify data).meta_target_ip = some (joinDec "." ((rest.drop 1).take 4))) := by
  subst hdata
  have hc : classify (0xEF :: 0xFE :: 0x04 :: rest) = parse_set_ip (0xEF :: 0xFE :: 0x04 :: rest) := by
    unfold classify PacketHandler.parse
    simp [is_set_ip_packet, pySlice, pyGet, SYNC_PATTERN_1, CMD_SET_IP]
  refine ⟨?_, ?_, fun h => ?_⟩
  · rw [hc]; unfold parse_set_ip; split_ifs <;> rfl
  · rw [hc]; unfold parse_set_ip; split_ifs <;> simp
  · have h5 : 5 ≤ rest.length := by simp [List.length_cons] at h; omega
    rw [hc]
    unfold parse_set_ip
    rw [if_pos (by simp [List.length_cons]; omega)]
    simp [pySlice]

/-- C6: an input matching none of the SetIP / Discovery / Data framings classifies as
Unknown, and the dispatcher routes it through `handle_data` exactly as it routes a
Data packet — with a live session bound to a radio, the unmodified bytes are sent to
that radio. -/
theorem C6_thm (st : ProxyState) (now : Int) (data : Bytes) (addr : Endpoint)
    (s : ActiveSession) (r : Endpoint)
    (h1 : is_set_ip_packet data = false) (h2 : is_discovery_packet data = false)
    (h3 : is_protocol1_data data = false)
    (hradio : st.radio_ips.any (fun p => p.1 == addr.ip) = false)
    (hsess : st.sm.get_session_by_client now addr = some s)
    (hr : s.radio_address = some r) :
    (classify data).packet_type = .UNKNOWN ∧
    handle_client_packet st now data addr
      = handle_data { st with handler_stats := (PacketHandler.parse st.handler_stats data).1 }
          now addr data ∧
    (handle_client_packet st now data addr).sent = st.sent ++ [(data, r)] := by
  have hty : (PacketHandler.parse st.handler_stats data).2.packet_type = .UNKNOWN := by
    rw [parse_packet_eq_classify, classify_unknown data h1 h2 h3]
  have he : handle_client_packet st now data addr
      = handle_data { st with handler_stats := (PacketHandler.parse st.handler_stats data).1 }
          now addr data := by
    unfold handle_client_packet
    rw [if_neg (by simp [hradio])]
    dsimp only
    rw [hty]
  refine ⟨by rw [classify_unknown data h1 h2 h3], he, ?_⟩
  rw [he]
  unfold handle_data
  rw [show ({ st with handler_stats := (PacketHandler.parse st.handler_stats data).1 } : ProxyState).sm = st.sm from rfl, hsess]
  dsimp only
  exact forward_to_radio_sent _ now data addr s r hsess hr

/-- C7 witness: a datagram from the resolved radio IP of the example configuration. -/
theorem C7_witness :
    handle_client_packet exState 0 [1, 2, 3] ⟨"10.0.0.5", 1024⟩
      = (forward_to_client exState 0 [1, 2, 3] "10.0.0.5" 1024).1 ∧
    (handle_client_packet exState 0 [1, 2, 3] ⟨"10.0.0.5", 1024⟩).handler_stats
      = exState.handler_stats :=
  C7_thm exState 0 [1, 2, 3] ⟨"10.0.0.5", 1024⟩ (by decide)

/-- C6 witness: 1032 zero bytes from a client with a bound session reach the radio. -/
theorem C6_witness :
    (classify (List.replicate 1032 0)).packet_type = .UNKNOWN ∧
    handle_client_packet exBoundState 1 (List.replicate 1032 0) exClient
      = handle_data
          { exBoundState with
            handler_stats := (PacketHandler.parse exBoundState.handler_stats (List.replicate 1032 0)).1 }
          1 exClient (List.replicate 1032 0) ∧
    (handle_client_packet exBoundState 1 (List.replicate 1032 0) exClient).sent
      = exBoundState.sent ++ [(List.replicate 1032 0, ⟨"10.0.0.5", 1025⟩)] :=
  C6_thm exBoundState 1 (List.replicate 1032 0) exClient exBoundSession ⟨"10.0.0.5", 1025⟩
    (by decide) (by decide) (by decide) (by decide) (by decide) (by decide)

/-- C5 witness: the 64-byte packet `EF FE 04 01 0A 00 00 05 …` classifies as SetIP
with target_ip 10.0.0.5. -/
theorem C5_witness :
    (classify ([0xEF, 0xFE, 0x04, 0x01, 0x0A, 0x00, 0x00, 0x05] ++ List.replicate 56 0)).packet_type
      = .SET_IP ∧
    (classify ([0xEF, 0xFE, 0x04, 0x01, 0x0A, 0x00, 0x00, 0x05] ++ List.replicate 56 0)).packet_type
      ≠ .DISCOVERY ∧
    (classify ([0xEF, 0xFE, 0x04, 0x01, 0x0A, 0x00, 0x00, 0x05] ++ List.replicate 56 0)).meta_target_ip
      = some "10.0.0.5" := by
  have h := C5_thm ([0x01, 0x0A, 0x00, 0x00, 0x05] ++ List.replicate 56 0)
    ([0xEF, 0xFE, 0x04, 0x01, 0x0A, 0x00, 0x00, 0x05] ++ List.replicate 56 0) rfl
  exact ⟨h.1, h.2.1, by rw [h.2.2 (by decide)]; decide⟩

/-- C4 counterexample: a 16-byte Data-framed input.  The claim as stated says its
C0..C4 window equals bytes 11..16, but the parser leaves `command_bytes` and the
flags unset because the extraction sits inside the `len(data) >= 1032` guard. -/
theorem C4_counterexample :
    (([0xEF, 0xFE, 0x01, 0, 0, 0, 1, 0, 0, 0, 0, 0x03, 9, 9, 9, 9] : Bytes).length = 16) ∧
    (classify [0xEF, 0xFE, 0x01, 0, 0, 0, 1, 0, 0, 0, 0, 0x03, 9, 9, 9, 9]).packet_type
      = .DATA ∧
    (classify [0xEF, 0xFE, 0x01, 0, 0, 0, 1, 0, 0, 0, 0, 0x03, 9, 9, 9, 9]).command_bytes
      = none ∧
    (classify [0xEF, 0xFE, 0x01, 0, 0, 0, 1, 0, 0, 0, 0, 0x03, 9, 9, 9, 9]).meta_ptt = none ∧
    ¬((classify [0xEF, 0xFE, 0x01, 0, 0, 0, 1, 0, 0, 0, 0, 0x03, 9, 9, 9, 9]).command_bytes
      = some (pySlice [0xEF, 0xFE, 0x01, 0, 0, 0, 1, 0, 0, 0, 0, 0x03, 9, 9, 9, 9] 11 16)) := by
  decide

/-- C4 witness: the amended theorem applied to a concrete 1032-byte Data frame. -/
theorem C4_witness :
    (classify (0xEF :: 0xFE :: 0x01 :: 0 :: 0 :: 0 :: 1 :: 0 :: List.replicate 1024 3)).packet_type
      = .DATA ∧
    (classify (0xEF :: 0xFE :: 0x01 :: 0 :: 0 :: 0 :: 1 :: 0 :: List.replicate 1024 3)).sequence_number
      = some 1 ∧
    (classify (0xEF :: 0xFE :: 0x01 :: 0 :: 0 :: 0 :: 1 :: 0 :: List.replicate 1024 3)).command_bytes
      = some [3, 3, 3, 3, 3] ∧
    (classify (0xEF :: 0xFE :: 0x01 :: 0 :: 0 :: 0 :: 1 :: 0 :: List.replicate 1024 3)).meta_ptt
      = some true ∧
    (classify (0xEF :: 0xFE :: 0x01 :: 0 :: 0 :: 0 :: 1 :: 0 :: List.replicate 1024 3)).meta_freq_change
      = some true := by
  obtain ⟨ht, hs, himp⟩ := C4_thm 0 0 0 1 0 (List.replicate 1024 3) _ rfl
  obtain ⟨hc, hp, hf⟩ := himp (by simp)
  refine ⟨ht, by simpa using hs, ?_, ?_, ?_⟩
  · rw [hc]; decide
  · rw [hp]; decide
  · rw [hf]; decide

/-- C2 (code bug, evaluated at the failing input): a session whose `expires_at` has
passed is classified as expired by the reaper pass, yet the pass removes nothing —
`terminate_session` re-reads the session through `get_session_by_client`, which
filters out expired entries and returns none, so the expired session stays in all
three lookup tables while `expired_sessions` is still incremented (and an explicit
`terminate_session` call on it is a no-op). -/
theorem C2_thm :
    exExpiredSession.is_expired 200 = true ∧
    exExpiredSM.terminate_session 200 exClient "expired" = exExpiredSM ∧
    (exExpiredSM.cleanup_sessions 200).sessions_by_client = [exExpiredSession] ∧
    (exExpiredSM.cleanup_sessions 200).sessions_by_token = [exExpiredSession] ∧
    (exExpiredSM.cleanup_sessions 200).sessions_by_id = [exExpiredSession] ∧
    (exExpiredSM.cleanup_sessions 200).stats.expired_sessions
      = exExpiredSM.stats.expired_sessions + 1 := by
  decide

/-- C3 counterexample: session A (earlier in insertion order) claims radio
10.0.0.5:1024 at t=10 and session B claims the same endpoint at t=20; the reverse
lookup returns the client endpoint of A, not of the most recent claimer B, refuting
last-writer-wins as stated. -/
theorem C3_counterexample :
    exContendedSM.get_client_for_radio "10.0.0.5" 1024 = some ⟨"192.168.1.20", 50000⟩ ∧
    (⟨"192.168.1.20", 50000⟩ : Endpoint) ≠ ⟨"192.168.1.21", 50001⟩ ∧
    ((exContendedSM.get_session_by_client 30 ⟨"192.168.1.21", 50001⟩).map (·.radio_address))
      = some (some ⟨"10.0.0.5", 1024⟩) := by
  decide

/-- C3 (amended): `get_client_for_radio` resolves first-match-in-insertion-order —
it returns the client endpoint of the earliest session in `sessions_by_client`
whose radio field equals the queried endpoint, a later claim of the same radio
endpoint by a different, later-inserted client does not change that result, and the
claim does not modify any other session (no radio field is cleared). -/
theorem C3_thm (m : SessionManager) (now : Int) (rip : String) (rport : Nat)
    (l₁ l₂ : List ActiveSession) (s₁ : ActiveSession) (ep₂ : Endpoint)
    (hshape : m.sessions_by_client = l₁ ++ s₁ :: l₂)
    (hl₁ : ∀ t ∈ l₁, t.radio_address ≠ some ⟨rip, rport⟩)
    (hs₁ : s₁.radio_address = some ⟨rip, rport⟩)
    (hne : s₁.client_address ≠ ep₂)
    (hl₁c : ∀ t ∈ l₁, t.client_address ≠ ep₂) :
    m.get_client_for_radio rip rport = some s₁.client_address ∧
    ((m.assign_radio now ep₂ rip rport none).1).get_client_for_radio rip rport
      = some s₁.client_address ∧
    (∀ t ∈ m.sessions_by_client, t.client_address ≠ ep₂ →
      t ∈ ((m.assign_radio now ep₂ rip rport none).1).sessions_by_client) := by
  have hfind : ∀ l : List ActiveSession, (∀ t ∈ l, t.radio_address ≠ some ⟨rip, rport⟩) →
      (l ++ s₁ :: l₂).find? (fun s => decide (s.radio_address = some ⟨rip, rport⟩)) = some s₁ := by
    intro l hl
    rw [List.find?_append, List.find?_eq_none.mpr (fun t ht => by simp [hl t ht]),
      Option.none_or, List.find?_cons_of_pos _ (by simp [hs₁])]
  have ha : m.get_client_for_radio rip rport = some s₁.client_address := by
    unfold SessionManager.get_client_for_radio
    rw [hshape, hfind l₁ hl₁]
    rfl
  refine ⟨ha, ?_, ?_⟩
  · cases hq : m.get_session_by_client now ep₂ with
    | none => simp only [SessionManager.assign_radio, hq]; exact ha
    | some s =>
      simp only [SessionManager.assign_radio, hq]
      unfold SessionManager.get_client_for_radio SessionManager.mutateByClient
      dsimp only
      rw [hshape]
      have hmap : (l₁ ++ s₁ :: l₂).map
          (fun t => if t.client_address = ep₂ then
            { t with radio_address := some ⟨rip, rport⟩, radio_id := none } else t)
          = l₁ ++ s₁ :: l₂.map (fun t => if t.client_address = ep₂ then
            { t with radio_address := some ⟨rip, rport⟩, radio_id := none } else t) := by
        rw [List.map_append, List.map_cons, if_neg hne]
        congr 1
        conv_rhs => rw [← List.map_id l₁]
        exact List.map_congr_left (fun t ht => by rw [if_neg (hl₁c t ht)]; rfl)
      rw [hmap]
      have : ∀ t ∈ l₂, True := fun _ _ => trivial
      rw [List.find?_append, List.find?_eq_none.mpr (fun t ht => by simp [hl₁ t ht]),
        Option.none_or, List.find?_cons_of_pos _ (by simp [hs₁])]
      rfl
  · intro t ht htne
    cases hq : m.get_session_by_client now ep₂ with
    | none => simp only [SessionManager.assign_radio, hq]; exact ht
    | some s =>
      simp only [SessionManager.assign_radio, hq]
      unfold SessionManager.mutateByClient
      dsimp only
      have := List.mem_map_of_mem
        (fun (u : ActiveSession) => if u.client_address = ep₂ then
          { u with radio_address := some ⟨rip, rport⟩, radio_id := none } else u) ht
      dsimp only at this
      rwa [if_neg htne] at this

/-- C3 witness: the amended theorem applied to the two-session contended state. -/
theorem C3_witness :
    exContendedSM.get_client_for_radio "10.0.0.5" 1024 = some exSessA'.client_address ∧
    ((exContendedSM.assign_radio 40 ⟨"192.168.1.21", 50001⟩ "10.0.0.5" 1024 none).1).get_client_for_radio
      "10.0.0.5" 1024 = some exSessA'.client_address ∧
    (∀ t ∈ exContendedSM.sessions_by_client, t.client_address ≠ ⟨"192.168.1.21", 50001⟩ →
      t ∈ ((exContendedSM.assign_radio 40 ⟨"192.168.1.21", 50001⟩ "10.0.0.5" 1024
        none).1).sessions_by_client) :=
  C3_thm exContendedSM 40 "10.0.0.5" 1024 [] [exSessB'] exSessA' ⟨"192.168.1.21", 50001⟩
    (by decide) (by simp) (by decide) (by decide) (by simp)

theorem dictFind?_insert_self {κ : Type} [DecidableEq κ] (key : ActiveSession → κ)
    (l : List ActiveSession) (s : ActiveSession) :
    dictFind? key (dictInsert key l s) (key s) = some s := by
  unfold dictInsert dictFind?
  split
  · rename_i hany
    induction l with
    | nil => simp at hany
    | cons a as ih =>
      by_cases hk : key a = key s
      · simp only [List.map_cons, if_pos hk]
        exact List.find?_cons_of_pos _ (by simp)
      · simp only [List.map_cons, if_neg hk]
        rw [List.find?_cons_of_neg _ (by simp [hk])]
        exact ih (by simpa [hk] using hany)
  · rename_i hany
    rw [List.find?_append,
      List.find?_eq_none.mpr (fun t ht => by
        simp only [List.any_eq_true, not_exists, not_and] at hany
        simp [hany t ht]),
      Option.none_or]
    exact List.find?_cons_of_pos _ (by simp)

theorem find?_client_map_mutate (l : List ActiveSession) (ep : Endpoint)
    (f : ActiveSession → ActiveSession)
    (hf : ∀ t, (f t).client_address = t.client_address) :
    dictFind? (·.client_address)
        (l.map (fun t => if t.client_address = ep then f t else t)) ep
      = (dictFind? (·.client_address) l ep).map f := by
  unfold dictFind?
  rw [List.find?_map]
  have hp : ((fun t : ActiveSession => decide (t.client_address = ep)) ∘
      (fun t => if t.client_address = ep then f t else t))
      = fun t : ActiveSession => decide (t.client_address = ep) := by
    funext t
    by_cases h : t.client_address = ep <;> simp [h, hf]
  rw [hp]
  cases hfind : l.find? (fun t => decide (t.client_address = ep)) with
  | none => rfl
  | some t =>
    have hpt := List.find?_some hfind
    simp only [decide_eq_true_eq] at hpt
    simp [hpt]

theorem get_session_after_add (m : SessionManager) (now : Int) (s : ActiveSession)
    (h : s.is_expired now = false) :
    (m.add_session s).get_session_by_client now s.client_address = some s := by
  unfold SessionManager.add_session SessionManager.get_session_by_client
  dsimp only
  rw [show s.client_address = (fun t : ActiveSession => t.client_address) s from rfl,
    dictFind?_insert_self (·.client_address) m.sessions_by_client s]
  simp [h]

theorem get_session_after_mutate (m : SessionManager) (now : Int) (ep : Endpoint)
    (f : ActiveSession → ActiveSession)
    (hf : ∀ t, (f t).client_address = t.client_address)
    (hexp : ∀ t, (f t).expires_at = t.expires_at) :
    (m.mutateByClient ep f).get_session_by_client now ep
      = (m.get_session_by_client now ep).map f := by
  unfold SessionManager.mutateByClient SessionManager.get_session_by_client
  dsimp only
  rw [find?_client_map_mutate _ _ _ hf]
  cases h : dictFind? (·.client_address) m.sessions_by_client ep with
  | none => rfl
  | some t =>
    unfold ActiveSession.is_expired
    simp only [Option.map_some', hexp t, apply_ite (Option.map f), Option.map_none']

theorem statsFind?_modify_append (l : List (Nat × SessionStat)) (k : Nat) (v : SessionStat)
    (f : SessionStat → SessionStat) (h : statsFind? l k = none) :
    statsFind? (statsModify (l ++ [(k, v)]) k f) k = some (f v) := by
  have hnone : l.find? (fun p => decide (p.1 = k)) = none := by
    unfold statsFind? at h
    cases hf : l.find? (fun p => decide (p.1 = k)) with
    | none => rfl
    | some p => rw [hf] at h; simp at h
  have hl : l.map (fun p => if p.1 = k then (k, f p.2) else p) = l := by
    conv_rhs => rw [← List.map_id l]
    refine List.map_congr_left (fun p hp => ?_)
    rw [List.find?_eq_none] at hnone
    have hppk := hnone p hp
    simp only [decide_eq_true_eq] at hppk
    rw [if_neg hppk]
    rfl
  unfold statsModify statsFind?
  rw [List.map_append, hl, List.find?_append, hnone, Option.none_or]
  simp

theorem forward_to_radio_spec (st : ProxyState) (now : Int) (data : Bytes) (ep : Endpoint)
    (s : ActiveSession) (r : Endpoint)
    (h1 : st.sm.get_session_by_client now ep = some s) (h2 : s.radio_address = some r)
    (hfresh : statsFind? st.session_stats s.session_id = none) :
    ((forward_to_radio st now data ep).1).sent = st.sent ++ [(data, r)] ∧
    ((forward_to_radio st now data ep).1).sm = (st.sm.update_activity now ep).1 ∧
    statsFind? ((forward_to_radio st now data ep).1).session_stats s.session_id
      = some { packets_sent := 1, packets_received := 0, bytes_sent := data.length,
               bytes_received := 0, start_time := now } ∧
    ((forward_to_radio st now data ep).1).fwd_stats.packets_forwarded_to_radio
      = st.fwd_stats.packets_forwarded_to_radio + 1 ∧
    ((forward_to_radio st now data ep).1).fwd_stats.bytes_forwarded_to_radio
      = st.fwd_stats.bytes_forwarded_to_radio + data.length := by
  simp only [forward_to_radio, h1, h2]
  rw [if_neg (by simp [hfresh])]
  refine ⟨rfl, rfl, ?_, rfl, rfl⟩
  have := statsFind?_modify_append st.session_stats s.session_id
    { packets_sent := 0, packets_received := 0, bytes_sent := 0, bytes_received := 0,
      start_time := now }
    (fun t => { t with packets_sent := t.packets_sent + 1,
                       bytes_sent := t.bytes_sent + data.length }) hfresh
  simpa using this

theorem handle_discovery_spec (st : ProxyState) (now : Int) (ep : Endpoint) (data : Bytes)
    (radio : RadioConfig) (rtl : List RadioConfig) (rip : String)
    (hraw : dictFind? (·.client_address) st.sm.sessions_by_client ep = none)
    (hanon : st.allow_anonymous = true)
    (hradios : st.radios = radio :: rtl)
    (hres : (st.radio_ips.find? fun p => decide (p.2 = radio)).map (·.1) = some rip)
    (httl : 0 ≤ st.sm.anon_session_ttl)
    (hfresh : statsFind? st.session_stats st.sm.next_session_id = none) :
    ((handle_discovery st now ep data).sm.get_session_by_client now ep).map (·.radio_address)
      = some (some ⟨rip, radio.port⟩) ∧
    (handle_discovery st now ep data).sent = st.sent ++ [(data, ⟨rip, radio.port⟩)] ∧
    statsFind? (handle_discovery st now ep data).session_stats st.sm.next_session_id
      = some { packets_sent := 1, packets_received := 0, bytes_sent := data.length,
               bytes_received := 0, start_time := now } ∧
    (handle_discovery st now ep data).fwd_stats.packets_forwarded_to_radio
      = st.fwd_stats.packets_forwarded_to_radio + 1 ∧
    (handle_discovery st now ep data).fwd_stats.bytes_forwarded_to_radio
      = st.fwd_stats.bytes_forwarded_to_radio + data.length := by
  have hval : st.sm.get_session_by_client now ep = none := by
    unfold SessionManager.get_session_by_client
    rw [hraw]
  -- the fresh anonymous session and the manager after its insertion
  have hm2 : (st.sm.create_anonymous_session now ep).1
      = SessionManager.add_session { st.sm with next_session_id := st.sm.next_session_id + 1 }
          (st.sm.create_anonymous_session now ep).2 := by
    simp [SessionManager.create_anonymous_session, hraw]
  have hnotexp : (st.sm.create_anonymous_session now ep).2.is_expired now = false := by
    simp only [SessionManager.create_anonymous_session, ActiveSession.is_expired,
      decide_eq_false_iff_not, not_lt]
    omega
  have hm2get : ((st.sm.create_anonymous_session now ep).1).get_session_by_client now ep
      = some (st.sm.create_anonymous_session now ep).2 := by
    rw [hm2]
    exact get_session_after_add _ now _ hnotexp
  -- the handler reduces to a forward after session creation and radio assignment
  have hbody : handle_discovery st now ep data
      = (forward_to_radio
          { st with sm := ((st.sm.create_anonymous_session now ep).1.assign_radio
              now ep rip radio.port none).1 } now data ep).1 := by
    unfold handle_discovery
    simp [SessionManager.validate_client, hval, hanon, hradios, hres]
  have hm3 : ((st.sm.create_anonymous_session now ep).1.assign_radio now ep rip radio.port
        none).1
      = SessionManager.mutateByClient (st.sm.create_anonymous_session now ep).1 ep
          (fun s => { s with radio_address := some ⟨rip, radio.port⟩, radio_id := none }) := by
    simp [SessionManager.assign_radio, hm2get]
  have hm3get : (((st.sm.create_anonymous_session now ep).1.assign_radio now ep rip radio.port
        none).1).get_session_by_client now ep
      = some { (st.sm.create_anonymous_session now ep).2 with
          radio_address := some ⟨rip, radio.port⟩, radio_id := none } := by
    rw [hm3, get_session_after_mutate _ now ep
      (fun s => { s with radio_address := some ⟨rip, radio.port⟩, radio_id := none })
      (fun t => rfl) (fun t => rfl), hm2get]
    rfl
  have hfr := forward_to_radio_spec
    { st with sm := ((st.sm.create_anonymous_session now ep).1.assign_radio
        now ep rip radio.port none).1 } now data ep
    { (st.sm.create_anonymous_session now ep).2 with
        radio_address := some ⟨rip, radio.port⟩, radio_id := none }
    ⟨rip, radio.port⟩ hm3get rfl hfresh
  rw [hbody]
  refine ⟨?_, hfr.1, hfr.2.2.1, hfr.2.2.2.1, hfr.2.2.2.2⟩
  rw [hfr.2.1]
  have hupd : ((((st.sm.create_anonymous_session now ep).1.assign_radio now ep rip radio.port
        none).1).update_activity now ep).1
      = SessionManager.mutateByClient
          ((st.sm.create_anonymous_session now ep).1.assign_radio now ep rip radio.port none).1
          ep (fun t => t.update_activity now) := by
    simp [SessionManager.update_activity, hm3get]
  rw [hupd, get_session_after_mutate _ now ep (fun t => t.update_activity now)
    (fun t => rfl) (fun t => rfl), hm3get]
  rfl

theorem classify_discovery_request (drest : Bytes) :
    (classify (0xEF :: 0xFE :: 0x02 :: drest)).packet_type = .DISCOVERY := by
  unfold classify PacketHandler.parse
  simp only [is_set_ip_packet, is_discovery_packet, pySlice, pyGet, SYNC_PATTERN_1,
    CMD_SET_IP, CMD_DISCOVERY]
  norm_num
  unfold parse_discovery
  dsimp only
  split_ifs <;> rfl

/-- C1: a Discovery request (`EF FE 02 …`) from a client endpoint with no entry in
the session table, with anonymous mode enabled, makes the dispatcher create an
anonymous session (spec-modelled `create_anonymous_session`), assign the first
enabled radio at its resolved IP and control port, and forward the original bytes
unchanged there; the fresh session's counters read packets_sent = 1 and
bytes_sent = length of the datagram, and the forwarder's global to-radio counters
increase by the same amounts. -/
theorem C1_thm (st : ProxyState) (now : Int) (ep : Endpoint) (drest data : Bytes)
    (radio : RadioConfig) (rtl : List RadioConfig) (rip : String)
    (hdata : data = 0xEF :: 0xFE :: 0x02 :: drest)
    (hradioips : st.radio_ips.any (fun p => p.1 == ep.ip) = false)
    (hraw : dictFind? (·.client_address) st.sm.sessions_by_client ep = none)
    (hanon : st.allow_anonymous = true)
    (hradios : st.radios = radio :: rtl)
    (hres : (st.radio_ips.find? fun p => decide (p.2 = radio)).map (·.1) = some rip)
    (httl : 0 ≤ st.sm.anon_session_ttl)
    (hfresh : statsFind? st.session_stats st.sm.next_session_id = none) :
    ((handle_client_packet st now data ep).sm.get_session_by_client now ep).map
        (·.radio_address) = some (some ⟨rip, radio.port⟩) ∧
    (handle_client_packet st now data ep).sent = st.sent ++ [(data, ⟨rip, radio.port⟩)] ∧
    statsFind? (handle_client_packet st now data ep).session_stats st.sm.next_session_id
      = some { packets_sent := 1, packets_received := 0, bytes_sent := data.length,
               bytes_received := 0, start_time := now } ∧
    (handle_client_packet st now data ep).fwd_stats.packets_forwarded_to_radio
      = st.fwd_stats.packets_forwarded_to_radio + 1 ∧
    (handle_client_packet st now data ep).fwd_stats.bytes_forwarded_to_radio
      = st.fwd_stats.bytes_forwarded_to_radio + data.length := by
  subst hdata
  have hdisp : handle_client_packet st now (0xEF :: 0xFE :: 0x02 :: drest) ep
      = handle_discovery
          { st with handler_stats :=
              (PacketHandler.parse st.handler_stats (0xEF :: 0xFE :: 0x02 :: drest)).1 }
          now ep (0xEF :: 0xFE :: 0x02 :: drest) := by
    unfold handle_client_packet
    rw [if_neg (by simp [hradioips])]
    dsimp only
    rw [show (PacketHandler.parse st.handler_stats (0xEF :: 0xFE :: 0x02 :: drest)).2.packet_type
        = .DISCOVERY from by
      rw [parse_packet_eq_classify]; exact classify_discovery_request drest]
  rw [hdisp]
  exact handle_discovery_spec _ now ep _ radio rtl rip hraw hanon hradios hres httl hfresh

/-- C1 witness: the concrete scenario — fresh client 192.168.1.20:50000 sends the
63-byte discovery, the single enabled radio resolves to 10.0.0.5 with control port
1024. -/
theorem C1_witness :
    ((handle_client_packet exState 100 (0xEF :: 0xFE :: 0x02 :: List.replicate 60 0)
        exClient).sm.get_session_by_client 100 exClient).map (·.radio_address)
      = some (some ⟨"10.0.0.5", 1024⟩) ∧
    (handle_client_packet exState 100 (0xEF :: 0xFE :: 0x02 :: List.replicate 60 0) exClient).sent
      = exState.sent ++ [(0xEF :: 0xFE :: 0x02 :: List.replicate 60 0, ⟨"10.0.0.5", 1024⟩)] ∧
    statsFind? (handle_client_packet exState 100 (0xEF :: 0xFE :: 0x02 :: List.replicate 60 0)
        exClient).session_stats 1
      = some { packets_sent := 1, packets_received := 0, bytes_sent := 63,
               bytes_received := 0, start_time := 100 } ∧
    (handle_client_packet exState 100 (0xEF :: 0xFE :: 0x02 :: List.replicate 60 0)
        exClient).fwd_stats.packets_forwarded_to_radio = 1 ∧
    (handle_client_packet exState 100 (0xEF :: 0xFE :: 0x02 :: List.replicate 60 0)
        exClient).fwd_stats.bytes_forwarded_to_radio = 63 :=
  C1_thm exState 100 exClient (List.replicate 60 0) _ exRadio [] "10.0.0.5" rfl
    (by decide) rfl rfl rfl (by decide) (by decide) rfl

theorem SMLE_refl (a : SessionManager) : SMLE a a := ⟨le_refl _, le_refl _, le_refl _⟩

theorem SMLE_trans {a b c : SessionManager} (h1 : SMLE a b) (h2 : SMLE b c) : SMLE a c :=
  ⟨le_trans h1.1 h2.1, le_trans h1.2.1 h2.2.1, le_trans h1.2.2 h2.2.2⟩

theorem SMLE_add (m : SessionManager) (s : ActiveSession) : SMLE m (m.add_session s) := by
  unfold SessionManager.add_session
  exact ⟨Nat.le_succ _, le_refl _, le_refl _⟩

theorem SMLE_remove (m : SessionManager) (s : ActiveSession) : SMLE m (m.remove_session s) :=
  ⟨le_refl _, le_refl _, le_refl _⟩

theorem stats_mutate (m : SessionManager) (ep : Endpoint) (f : ActiveSession → ActiveSession) :
    (m.mutateByClient ep f).stats = m.stats := rfl

theorem stats_update_activity (m : SessionManager) (now : Int) (ep : Endpoint) :
    ((m.update_activity now ep).1).stats = m.stats := by
  unfold SessionManager.update_activity
  cases m.get_session_by_client now ep <;> rfl

theorem stats_assign_radio (m : SessionManager) (now : Int) (ep : Endpoint)
    (rip : String) (rport : Nat) (rid : Option Nat) :
    ((m.assign_radio now ep rip rport rid).1).stats = m.stats := by
  unfold SessionManager.assign_radio
  cases m.get_session_by_client now ep <;> rfl

theorem stats_validate_client (m : SessionManager) (now : Int) (ep : Endpoint) :
    ((m.validate_client now ep).1).stats = m.stats := by
  unfold SessionManager.validate_client
  cases m.get_session_by_client now ep <;> rfl

theorem SMLE_create_anonymous (m : SessionManager) (now : Int) (ep : Endpoint) :
    SMLE m ((m.create_anonymous_session now ep).1) := by
  unfold SessionManager.create_anonymous_session
  dsimp only
  cases dictFind? (·.client_address) m.sessions_by_client ep with
  | none => exact SMLE_add _ _
  | some old =>
    dsimp only
    exact SMLE_trans (SMLE_remove m old) (SMLE_add _ _)

theorem SMLE_terminate (m : SessionManager) (now : Int) (ep : Endpoint) (reason : String) :
    SMLE m (m.terminate_session now ep reason) := by
  unfold SessionManager.terminate_session
  cases m.get_session_by_client now ep with
  | none => exact SMLE_refl m
  | some s => exact SMLE_remove m s

theorem SMLE_foldl (f : SessionManager → ActiveSession → SessionManager)
    (hf : ∀ acc s, SMLE acc (f acc s)) :
    ∀ (l : List ActiveSession) (m : SessionManager), SMLE m (l.foldl f m) := by
  intro l
  induction l with
  | nil => intro m; exact SMLE_refl m
  | cons a as ih => intro m; exact SMLE_trans (hf m a) (ih (f m a))

theorem SMLE_cleanup (m : SessionManager) (now : Int) : SMLE m (m.cleanup_sessions now) := by
  unfold SessionManager.cleanup_sessions
  refine SMLE_trans (SMLE_foldl _ ?_ _ m) (SMLE_foldl _ ?_ _ _)
  · intro acc s
    exact SMLE_trans (SMLE_terminate acc now s.client_address "expired")
      ⟨le_refl _, Nat.le_succ _, le_refl _⟩
  · intro acc s
    exact SMLE_trans (SMLE_terminate acc now s.client_address "timeout")
      ⟨le_refl _, le_refl _, Nat.le_succ _⟩

theorem CountersLE_refl (a : ProxyState) : CountersLE a a :=
  ⟨le_refl _, le_refl _, le_refl _, le_refl _, le_refl _, le_refl _, le_refl _, le_refl _,
   le_refl _, le_refl _, le_refl _, le_refl _, le_refl _, le_refl _, le_refl _, SMLE_refl _⟩

theorem CountersLE_trans {a b c : ProxyState} (h1 : CountersLE a b) (h2 : CountersLE b c) :
    CountersLE a c := by
  obtain ⟨a1, a2, a3, a4, a5, a6, a7, a8, a9, a10, a11, a12, a13, a14, a15, asm⟩ := h1
  obtain ⟨b1, b2, b3, b4, b5, b6, b7, b8, b9, b10, b11, b12, b13, b14, b15, bsm⟩ := h2
  exact ⟨le_trans a1 b1, le_trans a2 b2, le_trans a3 b3, le_trans a4 b4, le_trans a5 b5,
    le_trans a6 b6, le_trans a7 b7, le_trans a8 b8, le_trans a9 b9, le_trans a10 b10,
    le_trans a11 b11, le_trans a12 b12, le_trans a13 b13, le_trans a14 b14, le_trans a15 b15,
    SMLE_trans asm bsm⟩

/-- A state change that only touches the session manager, monotonically. -/
theorem CountersLE_sm (a b : ProxyState) (hsm : SMLE a.sm b.sm)
    (hh : a.handler_stats = b.handler_stats) (hl : a.listener_stats = b.listener_stats)
    (hf : a.fwd_stats = b.fwd_stats) : CountersLE a b := by
  rw [CountersLE, hh, hl, hf]
  exact ⟨le_refl _, le_refl _, le_refl _, le_refl _, le_refl _, le_refl _, le_refl _, le_refl _,
   le_refl _, le_refl _, le_refl _, le_refl _, le_refl _, le_refl _, le_refl _, hsm⟩


theorem SMLE_of_stats_eq {a b : SessionManager} (h : a.stats = b.stats) : SMLE a b := by
  unfold SMLE
  rw [h]
  exact ⟨le_refl _, le_refl _, le_refl _⟩

theorem forward_to_radio_mono (st : ProxyState) (now : Int) (data : Bytes) (ep : Endpoint) :
    CountersLE st ((forward_to_radio st now data ep).1) := by
  unfold forward_to_radio
  split
  · exact ⟨le_refl _, le_refl _, le_refl _, le_refl _, le_refl _, le_refl _, le_refl _,
      le_refl _, le_refl _, le_refl _, le_refl _, le_refl _, le_refl _, Nat.le_succ _,
      le_refl _, SMLE_refl _⟩
  · split
    · exact ⟨le_refl _, le_refl _, le_refl _, le_refl _, le_refl _, le_refl _, le_refl _,
        le_refl _, le_refl _, le_refl _, le_refl _, le_refl _, le_refl _, le_refl _,
        Nat.le_succ _, SMLE_refl _⟩
    · dsimp only
      split <;>
        exact ⟨Nat.le_refl _, le_refl _, le_refl _, le_refl _, le_refl _, le_refl _, le_refl _,
          le_refl _, Nat.le_succ _, le_refl _, Nat.le_add_right _ _, le_refl _, le_refl _,
          le_refl _, le_refl _, SMLE_of_stats_eq (stats_update_activity _ _ _).symm⟩

theorem SMLE_assign (m : SessionManager) (now : Int) (ep : Endpoint) (rip : String)
    (rport : Nat) (rid : Option Nat) : SMLE m ((m.assign_radio now ep rip rport rid).1) :=
  SMLE_of_stats_eq (stats_assign_radio m now ep rip rport rid).symm

theorem forward_to_radio_mono' (st st' : ProxyState) (now : Int) (data : Bytes)
    (ep : Endpoint) (h : CountersLE st st') :
    CountersLE st ((forward_to_radio st' now data ep).1) :=
  CountersLE_trans h (forward_to_radio_mono st' now data ep)

theorem forward_to_client_mono (st : ProxyState) (now : Int) (data : Bytes)
    (rip : String) (rport : Nat) :
    CountersLE st ((forward_to_client st now data rip rport).1) := by
  unfold forward_to_client
  split
  · exact CountersLE_refl st
  · dsimp only
    split <;> [skip; exact ⟨le_refl _, le_refl _, le_refl _, le_refl _, le_refl _, le_refl _,
      le_refl _, le_refl _, le_refl _, Nat.le_succ _, le_refl _, Nat.le_add_right _ _,
      le_refl _, le_refl _, le_refl _, SMLE_refl _⟩]
    split <;>
      exact ⟨le_refl _, le_refl _, le_refl _, le_refl _, le_refl _, le_refl _,
        le_refl _, le_refl _, le_refl _, Nat.le_succ _, le_refl _, Nat.le_add_right _ _,
        le_refl _, le_refl _, le_refl _, SMLE_refl _⟩

theorem handle_discovery_mono (st : ProxyState) (now : Int) (ep : Endpoint) (data : Bytes) :
    CountersLE st (handle_discovery st now ep data) := by
  unfold handle_discovery
  have h0 : CountersLE st { st with sm := (st.sm.validate_client now ep).1 } :=
    CountersLE_sm _ _ (SMLE_of_stats_eq (stats_validate_client st.sm now ep).symm) rfl rfl rfl
  refine CountersLE_trans h0 ?_
  simp only []
  split
  · exact CountersLE_refl _
  · split
    · exact CountersLE_refl _
    · split
      · exact CountersLE_refl _
      · by_cases hc : ((st.sm.validate_client now ep).2.2.isNone && st.allow_anonymous) = true
        · rw [if_pos hc]
          exact forward_to_radio_mono' _ _ now data ep
            (CountersLE_sm _ _
              (SMLE_trans (SMLE_create_anonymous _ now ep) (SMLE_assign _ _ _ _ _ _))
              rfl rfl rfl)
        · rw [if_neg hc]
          split
          · exact forward_to_radio_mono' _ _ now data ep
              (CountersLE_sm _ _ (SMLE_assign _ _ _ _ _ _) rfl rfl rfl)
          · exact forward_to_radio_mono _ now data ep

theorem handle_data_mono (st : ProxyState) (now : Int) (ep : Endpoint) (data : Bytes) :
    CountersLE st (handle_data st now ep data) := by
  unfold handle_data
  split
  · exact forward_to_radio_mono st now data ep
  · split
    · dsimp only
      have h0 : CountersLE st { st with sm := (st.sm.create_anonymous_session now ep).1 } :=
        CountersLE_sm _ _ (SMLE_create_anonymous _ now ep) rfl rfl rfl
      refine CountersLE_trans h0 ?_
      split
      · exact CountersLE_refl _
      · split
        · exact forward_to_radio_mono' _ _ now data ep
            (CountersLE_sm _ _ (SMLE_assign _ _ _ _ _ _) rfl rfl rfl)
        · exact forward_to_radio_mono _ now data ep
    · exact CountersLE_refl st

theorem handle_set_ip_mono (st : ProxyState) (now : Int) (ep : Endpoint) (data : Bytes) :
    CountersLE st (handle_set_ip st now ep data) := by
  unfold handle_set_ip
  split
  · exact forward_to_radio_mono st now data ep
  · split
    · dsimp only
      have h0 : CountersLE st { st with sm := (st.sm.create_anonymous_session now ep).1 } :=
        CountersLE_sm _ _ (SMLE_create_anonymous _ now ep) rfl rfl rfl
      refine CountersLE_trans h0 ?_
      split
      · exact CountersLE_refl _
      · split
        · exact forward_to_radio_mono' _ _ now data ep
            (CountersLE_sm _ _ (SMLE_assign _ _ _ _ _ _) rfl rfl rfl)
        · exact forward_to_radio_mono _ now data ep
    · exact CountersLE_refl st

theorem parse_stats_mono (stats : HandlerStats) (data : Bytes) :
    stats.total_packets ≤ ((PacketHandler.parse stats data).1).total_packets ∧
    stats.discovery_packets ≤ ((PacketHandler.parse stats data).1).discovery_packets ∧
    stats.data_packets ≤ ((PacketHandler.parse stats data).1).data_packets ∧
    stats.unknown_packets ≤ ((PacketHandler.parse stats data).1).unknown_packets ∧
    stats.error_packets ≤ ((PacketHandler.parse stats data).1).error_packets := by
  unfold PacketHandler.parse
  split_ifs <;>
    exact ⟨Nat.le_succ _, by first | exact le_refl _ | exact Nat.le_succ _,
      by first | exact le_refl _ | exact Nat.le_succ _,
      by first | exact le_refl _ | exact Nat.le_succ _, le_refl _⟩

theorem handle_client_packet_mono (st : ProxyState) (now : Int) (data : Bytes) (addr : Endpoint) :
    CountersLE st (handle_client_packet st now data addr) := by
  unfold handle_client_packet
  dsimp only
  split
  · exact forward_to_client_mono st now data addr.ip addr.port
  · have h0 : CountersLE st
        { st with handler_stats := (PacketHandler.parse st.handler_stats data).1 } := by
      obtain ⟨p1, p2, p3, p4, p5⟩ := parse_stats_mono st.handler_stats data
      exact ⟨p1, p2, p3, p4, p5, le_refl _, le_refl _, le_refl _, le_refl _, le_refl _,
        le_refl _, le_refl _, le_refl _, le_refl _, le_refl _, SMLE_refl _⟩
    refine CountersLE_trans h0 ?_
    split
    · exact handle_discovery_mono _ now addr data
    · exact handle_set_ip_mono _ now addr data
    · exact handle_data_mono _ now addr data
    · exact handle_data_mono _ now addr data
    · exact forward_to_radio_mono _ now data addr

theorem handle_datagram_mono (st : ProxyState) (now : Int) (data : Bytes) (addr : Endpoint) :
    CountersLE st (handle_datagram st now data addr) := by
  unfold handle_datagram
  refine CountersLE_trans ?_ (handle_client_packet_mono _ now data addr)
  exact ⟨le_refl _, le_refl _, le_refl _, le_refl _, le_refl _, Nat.le_succ _,
    Nat.le_add_right _ _, le_refl _, le_refl _, le_refl _, le_refl _, le_refl _, le_refl _,
    le_refl _, le_refl _, SMLE_refl _⟩

/-- C9 (amended): across every sequence of non-reset operations, every pure counter
— the packet handler's, the listener's, the forwarder's, and the session table's
total_sessions / expired_sessions / timeouts — is monotonically non-decreasing;
`active_sessions` is excluded, being a gauge of the current table size. -/
theorem C9_thm (st : ProxyState) (ops : List ProxyOp)
    (h : ∀ op ∈ ops, op.isReset = false) :
    CountersLE st (ops.foldl applyOp st) := by
  induction ops generalizing st with
  | nil => exact CountersLE_refl st
  | cons op rest ih =>
    refine CountersLE_trans ?_ (ih (applyOp st op) (fun o ho => h o (List.mem_cons_of_mem op ho)))
    have hop := h op (List.mem_cons_self op rest)
    cases op with
    | recv now data addr => exact handle_datagram_mono st now data addr
    | reaperTick now =>
      exact CountersLE_sm _ _ (SMLE_cleanup st.sm now) rfl rfl rfl
    | externalTerminate now ep reason =>
      exact CountersLE_sm _ _ (SMLE_terminate st.sm now ep reason) rfl rfl rfl
    | resetHandlerStats => simp [ProxyOp.isReset] at hop
    | resetForwarderStats => simp [ProxyOp.isReset] at hop
    | resetListenerStats => simp [ProxyOp.isReset] at hop

/-- C9 counterexample: terminating a live session is not a reset, yet the session
table's `active_sessions` value strictly decreases, refuting the claim as stated for
that counter. -/
theorem C9_counterexample :
    (ProxyOp.externalTerminate 1 exClient "test").isReset = false ∧
    (applyOp exBoundState (.externalTerminate 1 exClient "test")).sm.stats.active_sessions
      < exBoundState.sm.stats.active_sessions := by
  decide

/-- C9 witness: the amended theorem applied to a concrete two-operation run. -/
theorem C9_witness :
    CountersLE exBoundState
      ([ProxyOp.reaperTick 5000, ProxyOp.recv 5001 (List.replicate 8 0) exClient].foldl
        applyOp exBoundState) :=
  C9_thm exBoundState [ProxyOp.reaperTick 5000, ProxyOp.recv 5001 (List.replicate 8 0) exClient]
    (by
      intro op hop
      simp only [List.mem_cons, List.not_mem_nil, or_false] at hop
      rcases hop with rfl | rfl <;> rfl)

theorem hexDigitVal_mem {c : Char} {v : Nat} (h : hexDigitVal c = some v) :
    (c, v) ∈ HEX_DIGITS := by
  unfold hexDigitVal at h
  cases hf : HEX_DIGITS.find? (fun p => p.1 == c) with
  | none => rw [hf] at h; cases h
  | some p =>
    obtain ⟨p1, p2⟩ := p
    rw [hf] at h
    have hp : p1 = c := by simpa using List.find?_some hf
    have hm := List.mem_of_find?_eq_some hf
    have hv : p2 = v := by simpa using h
    subst hp
    subst hv
    exact hm

theorem hexDigitVal_lt {c : Char} {v : Nat} (h : hexDigitVal c = some v) : v < 16 :=
  (by decide : ∀ q ∈ HEX_DIGITS, q.2 < 16) _ (hexDigitVal_mem h)

theorem hexChar_toLower {c : Char} {v : Nat} (h : hexDigitVal c = some v) :
    hexChar v = c.toLower :=
  (by decide : ∀ q ∈ HEX_DIGITS, hexChar q.2 = q.1.toLower) _ (hexDigitVal_mem h)

theorem hexDigitVal_ne_colon {c : Char} {v : Nat} (h : hexDigitVal c = some v) :
    (c != ':') = true :=
  (by decide : ∀ q ∈ HEX_DIGITS, (q.1 != ':') = true) _ (hexDigitVal_mem h)

theorem byteHex_pair {c₁ c₂ : Char} {h l : Nat}
    (h₁ : hexDigitVal c₁ = some h) (h₂ : hexDigitVal c₂ = some l) :
    byteHex (h * 16 + l) = String.mk [c₁.toLower, c₂.toLower] := by
  have hl := hexDigitVal_lt h₂
  have hh : (h * 16 + l) / 16 = h := by omega
  have hm : (h * 16 + l) % 16 = l := by omega
  unfold byteHex
  rw [hh, hm, hexChar_toLower h₁, hexChar_toLower h₂]

theorem take_set_of_le (v : Nat) :
    ∀ (p : Bytes) (i j : Nat), i ≤ j → (p.set j v).take i = p.take i := by
  intro p
  induction p with
  | nil => intro i j _; rfl
  | cons a as ih =>
    intro i j hij
    cases i with
    | zero => simp
    | succ i' =>
      cases j with
      | zero => omega
      | succ j' =>
        rw [List.set_cons_succ, List.take_succ_cons, List.take_succ_cons,
          ih i' j' (by omega)]

theorem writeFwParts_spec :
    ∀ (parts : List (List Char)) (p : Bytes) (i : Nat) (q : Bytes),
      writeFwParts p i parts = some q → q.take i = p.take i ∧ q.length = p.length := by
  intro parts
  induction parts with
  | nil =>
    intro p i q h
    cases h
    exact ⟨rfl, rfl⟩
  | cons part rest ih =>
    intro p i q h
    unfold writeFwParts at h
    cases hd : parseDec part with
    | none => rw [hd] at h; cases h
    | some v =>
      rw [hd] at h
      dsimp only at h
      split_ifs at h with h1 h2
      obtain ⟨hq1, hq2⟩ := ih (p.set i v) (i + 1) q h
      constructor
      · calc q.take i = (q.take (i + 1)).take i := by
              rw [List.take_take]; congr 1; omega
          _ = ((p.set i v).take (i + 1)).take i := by rw [hq1]
          _ = (p.set i v).take i := by rw [List.take_take]; congr 1; omega
          _ = p.take i := take_set_of_le v p i i (le_refl i)
      · rw [hq2, List.length_set]


theorem pySlice_take (l : Bytes) (n a b : Nat) (hbn : b ≤ n) :
    pySlice l a b = ((l.take n).take b).drop a := by
  unfold pySlice
  rw [List.take_take, min_eq_left hbn, List.drop_take]

theorem pyGet_take (l : Bytes) (n i : Nat) (hi : i < n) :
    pyGet l i = pyGet (l.take n) i := by
  unfold pyGet
  simp [List.getD, List.getElem?_take, hi]

/-- C8 (amended): the classifier round-trips the encoders — the encoded discovery
request classifies as Discovery with role request and no MAC; and for every MAC
string in colon-separated hex form with at least one nonzero digit (and a board id
in byte range, as the buffer write requires), the encoded discovery response
classifies as Discovery with role response, a MAC equal to the input lowercased, and
the same board id. -/
theorem C8_thm
    (c0 c1 c2 c3 c4 c5 c6 c7 c8 c9 c10 c11 : Char)
    (v0 v1 v2 v3 v4 v5 v6 v7 v8 v9 v10 v11 : Nat)
    (bid : Nat) (fw : String) (pkt : Bytes)
    (hc0 : hexDigitVal c0 = some v0) (hc1 : hexDigitVal c1 = some v1)
    (hc2 : hexDigitVal c2 = some v2) (hc3 : hexDigitVal c3 = some v3)
    (hc4 : hexDigitVal c4 = some v4) (hc5 : hexDigitVal c5 = some v5)
    (hc6 : hexDigitVal c6 = some v6) (hc7 : hexDigitVal c7 = some v7)
    (hc8 : hexDigitVal c8 = some v8) (hc9 : hexDigitVal c9 = some v9)
    (hc10 : hexDigitVal c10 = some v10) (hc11 : hexDigitVal c11 = some v11)
    (hnz : ¬(v0 = 0 ∧ v1 = 0 ∧ v2 = 0 ∧ v3 = 0 ∧ v4 = 0 ∧ v5 = 0 ∧ v6 = 0 ∧ v7 = 0 ∧
              v8 = 0 ∧ v9 = 0 ∧ v10 = 0 ∧ v11 = 0))
    (hbid : bid < 256)
    (hpkt : create_discovery_response
        (String.mk [c0, c1, ':', c2, c3, ':', c4, c5, ':', c6, c7, ':', c8, c9, ':', c10, c11])
        bid fw = some pkt) :
    (classify create_discovery_request).packet_type = .DISCOVERY ∧
    (classify create_discovery_request).is_response = false ∧
    (classify create_discovery_request).mac_address = none ∧
    (classify pkt).packet_type = .DISCOVERY ∧
    (classify pkt).is_response = true ∧
    (classify pkt).mac_address
      = some (String.mk ([c0, c1, ':', c2, c3, ':', c4, c5, ':', c6, c7, ':', c8, c9, ':',
          c10, c11].map Char.toLower)) ∧
    (classify pkt).board_id = some bid := by
  -- decode the encoder run recorded in hpkt
  have hfilter : List.filter (fun x => x != ':')
      [c0, c1, ':', c2, c3, ':', c4, c5, ':', c6, c7, ':', c8, c9, ':', c10, c11]
      = [c0, c1, c2, c3, c4, c5, c6, c7, c8, c9, c10, c11] := by
    simp [hexDigitVal_ne_colon hc0, hexDigitVal_ne_colon hc1, hexDigitVal_ne_colon hc2,
      hexDigitVal_ne_colon hc3, hexDigitVal_ne_colon hc4, hexDigitVal_ne_colon hc5,
      hexDigitVal_ne_colon hc6, hexDigitVal_ne_colon hc7, hexDigitVal_ne_colon hc8,
      hexDigitVal_ne_colon hc9, hexDigitVal_ne_colon hc10, hexDigitVal_ne_colon hc11]
  have hfrom : fromhex [c0, c1, c2, c3, c4, c5, c6, c7, c8, c9, c10, c11]
      = some [v0 * 16 + v1, v2 * 16 + v3, v4 * 16 + v5, v6 * 16 + v7, v8 * 16 + v9,
              v10 * 16 + v11] := by
    simp only [fromhex, hc0, hc1, hc2, hc3, hc4, hc5, hc6, hc7, hc8, hc9, hc10, hc11]
  have hcr : create_discovery_response
      (String.mk [c0, c1, ':', c2, c3, ':', c4, c5, ':', c6, c7, ':', c8, c9, ':', c10, c11])
      bid fw
      = writeFwParts
          (239 :: 254 :: 2 :: (v0 * 16 + v1) :: (v2 * 16 + v3) :: (v4 * 16 + v5) ::
            (v6 * 16 + v7) :: (v8 * 16 + v9) :: (v10 * 16 + v11) :: bid ::
            List.replicate 50 0)
          10 ((splitDots fw.data).take 5) := by
    unfold create_discovery_response
    rw [show (String.mk [c0, c1, ':', c2, c3, ':', c4, c5, ':', c6, c7, ':', c8, c9, ':',
        c10, c11]).data
        = [c0, c1, ':', c2, c3, ':', c4, c5, ':', c6, c7, ':', c8, c9, ':', c10, c11] from rfl,
      hfilter, hfrom]
    simp only []
    rw [if_neg (by omega)]
    rw [show ((((List.replicate 60 (0 : Nat)).set 0 0xEF).set 1 0xFE).set 2 0x02).take 3
        = [239, 254, 2] from rfl,
      show ((((List.replicate 60 (0 : Nat)).set 0 0xEF).set 1 0xFE).set 2 0x02).drop 9
        = List.replicate 51 0 from rfl]
    rw [show ([239, 254, 2] ++ [v0 * 16 + v1, v2 * 16 + v3, v4 * 16 + v5, v6 * 16 + v7,
        v8 * 16 + v9, v10 * 16 + v11] ++ List.replicate 51 0 : Bytes)
        = 239 :: 254 :: 2 :: (v0 * 16 + v1) :: (v2 * 16 + v3) :: (v4 * 16 + v5) ::
          (v6 * 16 + v7) :: (v8 * 16 + v9) :: (v10 * 16 + v11) :: List.replicate 51 0 from rfl]
    rw [if_neg (by simp)]
    rw [show (239 :: 254 :: 2 :: (v0 * 16 + v1) :: (v2 * 16 + v3) :: (v4 * 16 + v5) ::
        (v6 * 16 + v7) :: (v8 * 16 + v9) :: (v10 * 16 + v11) ::
        List.replicate 51 (0 : Nat)).set 9 bid
        = 239 :: 254 :: 2 :: (v0 * 16 + v1) :: (v2 * 16 + v3) :: (v4 * 16 + v5) ::
          (v6 * 16 + v7) :: (v8 * 16 + v9) :: (v10 * 16 + v11) :: bid ::
          List.replicate 50 0 from by
      simp [List.set_cons_succ, List.set_cons_zero,
        show List.replicate 51 (0 : Nat) = 0 :: List.replicate 50 0 from rfl]]
  rw [hcr] at hpkt
  obtain ⟨h10, hlen⟩ := writeFwParts_spec _ _ _ _ hpkt
  rw [show (239 :: 254 :: 2 :: (v0 * 16 + v1) :: (v2 * 16 + v3) :: (v4 * 16 + v5) ::
      (v6 * 16 + v7) :: (v8 * 16 + v9) :: (v10 * 16 + v11) :: bid ::
      List.replicate 50 (0 : Nat)).take 10
      = [239, 254, 2, v0 * 16 + v1, v2 * 16 + v3, v4 * 16 + v5, v6 * 16 + v7, v8 * 16 + v9,
         v10 * 16 + v11, bid] from rfl] at h10
  rw [show (239 :: 254 :: 2 :: (v0 * 16 + v1) :: (v2 * 16 + v3) :: (v4 * 16 + v5) ::
      (v6 * 16 + v7) :: (v8 * 16 + v9) :: (v10 * 16 + v11) :: bid ::
      List.replicate 50 (0 : Nat)).length = 60 from by simp] at hlen
  -- the classifier's reads of the packet
  have hs02 : pySlice pkt 0 2 = [239, 254] := by
    rw [pySlice_take pkt 10 0 2 (by omega), h10]
    rfl
  have hs39 : pySlice pkt 3 9
      = [v0 * 16 + v1, v2 * 16 + v3, v4 * 16 + v5, v6 * 16 + v7, v8 * 16 + v9,
         v10 * 16 + v11] := by
    rw [pySlice_take pkt 10 3 9 (by omega), h10]
    rfl
  have hg2 : pyGet pkt 2 = 2 := by
    rw [pyGet_take pkt 10 2 (by omega), h10]
    rfl
  have hg9 : pyGet pkt 9 = bid := by
    rw [pyGet_take pkt 10 9 (by omega), h10]
    rfl
  have hsetip : is_set_ip_packet pkt = false := by
    unfold is_set_ip_packet
    rw [if_neg (by omega), hs02, hg2]
    rfl
  have hdisc : is_discovery_packet pkt = true := by
    unfold is_discovery_packet
    rw [if_neg (by omega), hs02, hg2]
    rfl
  have hclass : classify pkt = parse_discovery pkt := by
    unfold classify PacketHandler.parse
    simp [hsetip, hdisc]
  have hany : ([v0 * 16 + v1, v2 * 16 + v3, v4 * 16 + v5, v6 * 16 + v7, v8 * 16 + v9,
      v10 * 16 + v11].any (· != 0)) = true := by
    simp only [List.any_cons, List.any_nil, Bool.or_eq_true, bne_iff_ne, ne_eq,
      Bool.or_false]
    omega
  have hmac : macHex [v0 * 16 + v1, v2 * 16 + v3, v4 * 16 + v5, v6 * 16 + v7, v8 * 16 + v9,
      v10 * 16 + v11]
      = String.mk ([c0, c1, ':', c2, c3, ':', c4, c5, ':', c6, c7, ':', c8, c9, ':', c10,
          c11].map Char.toLower) := by
    unfold macHex
    rw [List.map_cons, List.map_cons, List.map_cons, List.map_cons, List.map_cons,
      List.map_cons, List.map_nil, byteHex_pair hc0 hc1, byteHex_pair hc2 hc3,
      byteHex_pair hc4 hc5, byteHex_pair hc6 hc7, byteHex_pair hc8 hc9,
      byteHex_pair hc10 hc11]
    show String.mk (((((((((([c0.toLower, c1.toLower] ++ [':']) ++ [c2.toLower, c3.toLower])
        ++ [':']) ++ [c4.toLower, c5.toLower]) ++ [':']) ++ [c6.toLower, c7.toLower])
        ++ [':']) ++ [c8.toLower, c9.toLower]) ++ [':']) ++ [c10.toLower, c11.toLower]) = _
    simp [List.append_assoc, show Char.toLower ':' = ':' from by decide]
  have hp : (parse_discovery pkt).packet_type = .DISCOVERY ∧
      (parse_discovery pkt).is_response = true ∧
      (parse_discovery pkt).mac_address
        = some (String.mk ([c0, c1, ':', c2, c3, ':', c4, c5, ':', c6, c7, ':', c8, c9, ':',
            c10, c11].map Char.toLower)) ∧
      (parse_discovery pkt).board_id = some bid := by
    unfold parse_discovery
    simp only [hlen, hs39, hg9, hany]
    norm_num
    rw [hmac]
    simp
  refine ⟨by decide, by decide, by decide, ?_, ?_, ?_, ?_⟩ <;> rw [hclass]
  · exact hp.1
  · exact hp.2.1
  · exact hp.2.2.1
  · exact hp.2.2.2

/-- C8 counterexample: the all-zero MAC `00:00:00:00:00:00` is in colon-separated
hex form, yet its encoded response classifies as role request with no MAC — a zero
MAC field is precisely the parser's request/response discriminator — refuting the
claim as stated for every MAC. -/
theorem C8_counterexample :
    (create_discovery_response "00:00:00:00:00:00" 6 "1.0.0").isSome = true ∧
    (classify ((create_discovery_response "00:00:00:00:00:00" 6 "1.0.0").getD [])).packet_type
      = .DISCOVERY ∧
    (classify ((create_discovery_response "00:00:00:00:00:00" 6 "1.0.0").getD [])).is_response
      = false ∧
    (classify ((create_discovery_response "00:00:00:00:00:00" 6 "1.0.0").getD [])).mac_address
      = none := by
  decide

/-- C8 witness: the amended theorem applied to MAC `00:1C:C0:A2:12:34`, board id 6,
firmware 1.0.0. -/
theorem C8_witness :
    (classify create_discovery_request).packet_type = .DISCOVERY ∧
    (classify create_discovery_request).is_response = false ∧
    (classify create_discovery_request).mac_address = none ∧
    (classify ((create_discovery_response
        (String.mk ['0', '0', ':', '1', 'C', ':', 'C', '0', ':', 'A', '2', ':', '1', '2', ':',
          '3', '4']) 6 "1.0.0").getD [])).packet_type = .DISCOVERY ∧
    (classify ((create_discovery_response
        (String.mk ['0', '0', ':', '1', 'C', ':', 'C', '0', ':', 'A', '2', ':', '1', '2', ':',
          '3', '4']) 6 "1.0.0").getD [])).is_response = true ∧
    (classify ((create_discovery_response
        (String.mk ['0', '0', ':', '1', 'C', ':', 'C', '0', ':', 'A', '2', ':', '1', '2', ':',
          '3', '4']) 6 "1.0.0").getD [])).mac_address
      = some (String.mk (['0', '0', ':', '1', 'C', ':', 'C', '0', ':', 'A', '2', ':', '1', '2',
          ':', '3', '4'].map Char.toLower)) ∧
    (classify ((create_discovery_response
        (String.mk ['0', '0', ':', '1', 'C', ':', 'C', '0', ':', 'A', '2', ':', '1', '2', ':',
          '3', '4']) 6 "1.0.0").getD [])).board_id = some 6 :=
  C8_thm '0' '0' '1' 'C' 'C' '0' 'A' '2' '1' '2' '3' '4' 0 0 1 12 12 0 10 2 1 2 3 4 6 "1.0.0"
    ((create_discovery_response
        (String.mk ['0', '0', ':', '1', 'C', ':', 'C', '0', ':', 'A', '2', ':', '1', '2', ':',
          '3', '4']) 6 "1.0.0").getD [])
    (by decide) (by decide) (by decide) (by decide) (by decide) (by decide) (by decide)
    (by decide) (by decide) (by decide) (by decide) (by decide) (by decide) (by decide)
    (by decide)
